import Mathlib

/-!
# Trickster entry point: route table, tracing bootstrap and startup sequence

A shallow embedding of `main.go`, `tracing.go` and `config.go`.

* The route table of `main` is the list of routes registered on the
  `gorilla/mux` router, in registration order.  Route matching follows
  `mux.Router.Match` / `mux.Route.Match` for the fragment of path templates the
  program uses: literal text and `{name}` variables with the default pattern
  `[^/]+`, each variable being followed by `/` or by the end of the template.
  Serving a request follows `mux.Router.ServeHTTP`: a request whose `URL.Path`
  is not in canonical form is redirected before the table is consulted.
* `newTracer` is a state transformer on the process-wide trace configuration.
* `main` is a function from the results of the external calls it makes to the
  sequence of observable events and the way the process ends.
-/

namespace Trickster

/-! ## Constants (main.go) -/

def applicationName : String := "trickster"
def applicationVersion : String := "0.1.7"

def mnQueryRange : String := "query_range"
def mnQuery : String := "query"
def mnLabels : String := "label/__name__/values"
def mnHealth : String := "health"

def prometheusAPIv1Path : String := "/api/v1/"

/-! ## Requests and handlers -/

/-- The handler methods of `TricksterHandler` that `main` registers. -/
inductive Handler where
  | pingHandler
  | promHealthCheckHandler
  | promQueryRangeHandler
  | promQueryHandler
  | promFullProxyHandler
  deriving DecidableEq, Repr

/-- The part of `http.Request` the router reads: `Method` and `URL.Path`. -/
structure Request where
  Method : String
  Path : String
  deriving DecidableEq, Repr

/-- Route variables (`mux.Vars`), a `map[string]string` kept as an association list. -/
abbrev Vars := List (String × String)

/-- Assignment `m[k] = v` on a route-variable map. -/
def Vars.set (m : Vars) (k v : String) : Vars :=
  m.filter (fun kv => kv.1 != k) ++ [(k, v)]

/-! ## Path templates (mux `newRouteRegexp`) -/

/-- A compiled path template: literal text and `{name}` variables. -/
inductive TplPart where
  | lit (s : List Char)
  | var (name : List Char)
  deriving DecidableEq, Repr

/-- The literal collected so far, as a template part (nothing when empty). -/
def litPart (acc : List Char) : List TplPart :=
  if acc.isEmpty then [] else [TplPart.lit acc]

/-- Splits a template at its braces.  `inVar` says whether the scan is inside
`{...}`.  Unbalanced or nested braces, and variables with a custom pattern
(`{name:pattern}`), give `none`: mux rejects the former, the latter are outside
the modelled fragment. -/
def scanTemplate : List Char → Bool → List Char → Option (List TplPart)
  | [], false, acc => some (litPart acc)
  | [], true, _ => none
  | c :: cs, false, acc =>
    if c = '{' then (scanTemplate cs true []).map (fun ps => litPart acc ++ ps)
    else if c = '}' then none
    else scanTemplate cs false (acc ++ [c])
  | c :: cs, true, acc =>
    if c = '}' then (scanTemplate cs false []).map (fun ps => TplPart.var acc :: ps)
    else if c = '{' ∨ c = ':' then none
    else scanTemplate cs true (acc ++ [c])

/-- A compiled route regexp: `^` parts `$`, without the `$` for a path prefix. -/
structure routeRegexp where
  parts : List TplPart
  matchPrefix : Bool
  deriving DecidableEq, Repr

def newRouteRegexp (tpl : String) (matchPrefix : Bool) : Option routeRegexp :=
  (scanTemplate tpl.data false []).map (fun ps => { parts := ps, matchPrefix := matchPrefix })

/-- Matches the anchored regexp of a template against a path and returns the
submatches of the variables.  A literal is quoted text; a variable is `[^/]+`. -/
def matchParts (matchPrefix : Bool) : List TplPart → List Char → Option (List (String × String))
  | [], input => if matchPrefix || input.isEmpty then some [] else none
  | TplPart.lit s :: ps, input =>
    if s.isPrefixOf input then matchParts matchPrefix ps (input.drop s.length) else none
  | TplPart.var n :: ps, input =>
    let run := input.takeWhile (fun c => c != '/')
    if run.isEmpty then none
    else (matchParts matchPrefix ps (input.dropWhile (fun c => c != '/'))).map
      (fun vs => (String.mk n, String.mk run) :: vs)

def routeRegexp.submatches (re : routeRegexp) (path : String) : Option (List (String × String)) :=
  matchParts re.matchPrefix re.parts path.data

/-- The regexp matcher of a route: `regexp.MatchString(req.URL.Path)`. -/
def routeRegexp.Match (re : routeRegexp) (req : Request) : Bool :=
  (re.submatches req.Path).isSome

/-! ## Routes (mux `Route`) -/

/-- The matchers a route of this program carries. -/
inductive matcher where
  | path (re : routeRegexp)
  | methodMatcher (methods : List String)
  deriving DecidableEq, Repr

def matcher.Match : matcher → Request → Bool
  | matcher.path re, req => re.Match req
  | matcher.methodMatcher ms, req => ms.contains req.Method

def matcher.isMethodMatcher : matcher → Bool
  | matcher.methodMatcher _ => true
  | _ => false

structure Route where
  handler : Option Handler
  matchers : List matcher
  regexpPath : Option routeRegexp
  buildOnly : Bool
  err : Bool
  deriving DecidableEq, Repr

def NewRoute : Route :=
  { handler := none, matchers := [], regexpPath := none, buildOnly := false, err := false }

/-- Adds the path matcher (`addRegexpMatcher`); a template that does not
compile sets the route's error. -/
def Route.addRegexpMatcher (r : Route) (tpl : String) (matchPrefix : Bool) : Route :=
  if r.err then r else
  match newRouteRegexp tpl matchPrefix with
  | none => { r with err := true }
  | some re => { r with matchers := r.matchers ++ [matcher.path re], regexpPath := some re }

def Route.Path (r : Route) (tpl : String) : Route := r.addRegexpMatcher tpl false

def Route.PathPrefix (r : Route) (tpl : String) : Route := r.addRegexpMatcher tpl true

def Route.HandlerFunc (r : Route) (f : Handler) : Route :=
  if r.err then r else { r with handler := some f }

def upper (s : String) : String := String.mk (s.data.map Char.toUpper)

def Route.Methods (r : Route) (methods : List String) : Route :=
  if r.err then r else
  { r with matchers := r.matchers ++ [matcher.methodMatcher (methods.map upper)] }

/-- On a router, `HandleFunc(path, f)` is `NewRoute().Path(path).HandlerFunc(f)`. -/
def HandleFunc (path : String) (f : Handler) : Route := (NewRoute.Path path).HandlerFunc f

def PathPrefix (tpl : String) : Route := NewRoute.PathPrefix tpl

/-! ## Matching (mux `Route.Match`, `Router.Match`) -/

inductive MatchError where
  | ErrMethodMismatch
  | ErrNotFound
  deriving DecidableEq, Repr

structure RouteMatch where
  Route : Option Route
  Handler : Option Handler
  Vars : Vars
  MatchErr : Option MatchError
  deriving DecidableEq, Repr

/-- The zero value `var match RouteMatch`. -/
def RouteMatch.zero : RouteMatch :=
  { Route := none, Handler := none, Vars := [], MatchErr := none }

/-- The loop of `Route.Match` over the matchers.  The result is `none` when a
matcher other than the method matcher fails (`return false`), otherwise the
value of the local `matchErr` at the end of the loop. -/
def matchersLoop : List matcher → Request → Option MatchError → Option (Option MatchError)
  | [], _, matchErr => some matchErr
  | m :: ms, req, matchErr =>
    if m.Match req then matchersLoop ms req matchErr
    else if m.isMethodMatcher then matchersLoop ms req (some MatchError.ErrMethodMismatch)
    else none

/-- Stores the path variables in the match (`routeRegexpGroup.setMatch`). -/
def Route.setMatch (r : Route) (req : Request) (m : RouteMatch) : RouteMatch :=
  match r.regexpPath with
  | none => m
  | some re =>
    match re.submatches req.Path with
    | none => m
    | some vs => { m with Vars := vs.foldl (fun acc kv => Vars.set acc kv.1 kv.2) m.Vars }

def Route.Match (r : Route) (req : Request) (m : RouteMatch) : Bool × RouteMatch :=
  if r.buildOnly || r.err then (false, m) else
  match matchersLoop r.matchers req none with
  | none => (false, m)
  | some (some e) => (false, { m with MatchErr := some e })
  | some none =>
    let m1 : RouteMatch :=
      if m.MatchErr = some MatchError.ErrMethodMismatch then
        { m with MatchErr := none, Handler := r.handler }
      else m
    let m2 : RouteMatch :=
      { m1 with Route := if m1.Route.isNone then some r else m1.Route,
                Handler := if m1.Handler.isNone then r.handler else m1.Handler }
    (true, r.setMatch req m2)

/-- A router as `mux.NewRouter()` makes it: `NotFoundHandler` and
`MethodNotAllowedHandler` are unset, and `main` never sets them. -/
structure Router where
  routes : List Route
  deriving DecidableEq, Repr

/-- The loop of `Router.Match`: the routes are tried in registration order and
the first one whose `Match` returns true ends the loop. -/
def routesLoop : List Route → Request → RouteMatch → Bool × RouteMatch
  | [], _, m => (false, m)
  | r :: rs, req, m =>
    match r.Match req m with
    | (true, m1) => (true, m1)
    | (false, m1) => routesLoop rs req m1

def Router.Match (r : Router) (req : Request) (m : RouteMatch) : Bool × RouteMatch :=
  match routesLoop r.routes req m with
  | (true, m1) => (true, m1)
  | (false, m1) =>
    if m1.MatchErr = some MatchError.ErrMethodMismatch then (false, m1)
    else (false, { m1 with MatchErr := some MatchError.ErrNotFound })

/-! ## Serving a request (mux `cleanPath`, `Router.ServeHTTP`) -/

/-- The elements of a path: the text between its slashes. -/
def splitSlash : List Char → List Char → List (List Char)
  | [], cur => [cur]
  | c :: cs, cur => if c = '/' then cur :: splitSlash cs [] else splitSlash cs (cur ++ [c])

/-- The elements joined by single slashes. -/
def joinSlash : List (List Char) → List Char
  | [] => []
  | [e] => e
  | e :: es => e ++ '/' :: joinSlash es

/-- The loop of `path.Clean` over the elements of a path, `out` being the
elements kept so far: an empty element and `.` are skipped, `..` removes the last
kept element when there is one to remove, is dropped at the root of a rooted path
and kept in front of an unrooted one, and any other element is kept. -/
def cleanElems (rooted : Bool) : List (List Char) → List (List Char) → List (List Char)
  | [], out => out
  | e :: es, out =>
    if e = [] ∨ e = ['.'] then cleanElems rooted es out
    else if e = ['.', '.'] then
      if out ≠ [] ∧ out.getLast? ≠ some ['.', '.'] then cleanElems rooted es out.dropLast
      else if rooted then cleanElems rooted es out
      else cleanElems rooted es (out ++ [e])
    else cleanElems rooted es (out ++ [e])

/-- The shortest equivalent path (`path.Clean` of the Go library). -/
def Clean (path : String) : String :=
  if path = "" then "." else
  let rooted : Bool := path.data.head? = some '/'
  let out : List Char :=
    (if rooted then ['/'] else []) ++ joinSlash (cleanElems rooted (splitSlash path.data []) [])
  if out = [] then "." else String.mk out

/-- The canonical form of a request path (mux `cleanPath`): the cleaned path,
rooted, with the trailing slash of the original put back. -/
def cleanPath (p : String) : String :=
  if p = "" then "/" else
  let p1 : String := if p.data.head? ≠ some '/' then "/" ++ p else p
  let np := Clean p1
  if p1.data.getLast? = some '/' ∧ np ≠ "/" then np ++ "/" else np

/-- What the router answers to a request. -/
inductive Served where
  | movedPermanently (location : String)
  | call (h : Handler) (req : Request) (vars : Vars)
  | methodNotAllowed
  | notFound
  deriving DecidableEq, Repr

/-- The method `Router.ServeHTTP` with `skipClean` unset, as `main` leaves it: a
path that is not in canonical form is answered with a 301 to the canonical
path and no handler is called; otherwise the matched handler is called on the
request, which carries the route variables, and without a handler the response
is 405 after a method mismatch and 404 otherwise. -/
def Router.ServeHTTP (r : Router) (req : Request) : Served :=
  if cleanPath req.Path ≠ req.Path then Served.movedPermanently (cleanPath req.Path)
  else
    match r.Match req RouteMatch.zero with
    | (true, m) =>
      match m.Handler with
      | some h => Served.call h req m.Vars
      | none =>
        if m.MatchErr = some MatchError.ErrMethodMismatch then Served.methodNotAllowed
        else Served.notFound
    | (false, m) =>
      if m.MatchErr = some MatchError.ErrMethodMismatch then Served.methodNotAllowed
      else Served.notFound

/-! ## The route table of `main` (main.go, lines 88-105) -/

def routePing : Route := (HandleFunc "/ping" Handler.pingHandler).Methods ["GET"]

def routeOriginHealth : Route :=
  (HandleFunc ("/{originMoniker}/" ++ mnHealth) Handler.promHealthCheckHandler).Methods ["GET"]

def routeHealth : Route :=
  (HandleFunc ("/" ++ mnHealth) Handler.promHealthCheckHandler).Methods ["GET"]

def routeOriginQueryRange : Route :=
  (HandleFunc ("/{originMoniker}" ++ prometheusAPIv1Path ++ mnQueryRange)
    Handler.promQueryRangeHandler).Methods ["GET", "POST"]

def routeOriginQuery : Route :=
  (HandleFunc ("/{originMoniker}" ++ prometheusAPIv1Path ++ mnQuery)
    Handler.promQueryHandler).Methods ["GET", "POST"]

def routeOriginProxy : Route :=
  ((PathPrefix ("/{originMoniker}" ++ prometheusAPIv1Path)).HandlerFunc
    Handler.promFullProxyHandler).Methods ["GET"]

def routeQueryRange : Route :=
  (HandleFunc (prometheusAPIv1Path ++ mnQueryRange) Handler.promQueryRangeHandler).Methods
    ["GET", "POST"]

def routeQuery : Route :=
  (HandleFunc (prometheusAPIv1Path ++ mnQuery) Handler.promQueryHandler).Methods ["GET", "POST"]

def routeProxy : Route :=
  ((PathPrefix prometheusAPIv1Path).HandlerFunc Handler.promFullProxyHandler).Methods ["GET"]

def routeCatchAll : Route :=
  ((PathPrefix "/").HandlerFunc Handler.promFullProxyHandler).Methods ["GET"]

/-- The router `main` serves, its routes in the order of registration. -/
def mainRouter : Router :=
  { routes := [routePing, routeOriginHealth, routeHealth,
               routeOriginQueryRange, routeOriginQuery, routeOriginProxy,
               routeQueryRange, routeQuery, routeProxy,
               routeCatchAll] }

/-! ## Resolution of a request -/

/-- The outcome of route matching as a resolution: the matched route, the
handler and the route variables, or nothing when no route matched. -/
def resolution : Bool × RouteMatch → Option (Option Route × Option Handler × Vars)
  | (true, m) => some (m.Route, m.Handler, m.Vars)
  | (false, _) => none

/-- The route can take part in matching. -/
def Route.live (r : Route) : Bool := !(r.buildOnly || r.err)

/-- The path pattern of the route matches the request path. -/
def Route.pathMatches (r : Route) (req : Request) : Bool :=
  r.matchers.all (fun m => m.isMethodMatcher || m.Match req)

/-- The allowed methods of the route include the request method. -/
def Route.methodAllowed (r : Route) (req : Request) : Bool :=
  r.matchers.all (fun m => !m.isMethodMatcher || m.Match req)

/-- The route matches both the path and the method of the request. -/
def Route.matchesBoth (r : Route) (req : Request) : Bool :=
  r.live && r.pathMatches req && r.methodAllowed req

/-- The path pattern matches but the allowed methods exclude the request method. -/
def Route.methodMismatched (r : Route) (req : Request) : Bool :=
  r.live && r.pathMatches req && !r.methodAllowed req

/-- The variables the route extracts from the request path. -/
def Route.vars (r : Route) (req : Request) : Vars :=
  (r.setMatch req RouteMatch.zero).Vars

/-- First match in declared order, as the specification words it: the first
rule that matches both path and method wins. -/
def firstMatch (rs : List Route) (req : Request) : Option (Option Route × Option Handler × Vars) :=
  (rs.find? (fun r => r.matchesBoth req)).map (fun r => (some r, r.handler, r.vars req))

/-- The table without the rules whose path matches and whose methods exclude
the method of the request. -/
def dropMethodMismatched (rs : List Route) (req : Request) : List Route :=
  rs.filter (fun r => !r.methodMismatched req)

/-- The origin-scoped rules of the table. -/
def originScopedRoutes : List Route :=
  [routeOriginHealth, routeOriginQueryRange, routeOriginQuery, routeOriginProxy]

/-- The global rules of the table, the catch-all included. -/
def globalRoutes : List Route :=
  [routePing, routeHealth, routeQueryRange, routeQuery, routeProxy, routeCatchAll]

/-! ## Configuration (config.go) -/

/-- A `float64`, carried by its IEEE-754 bit pattern.  The program never computes
with the sampler fraction; it only hands it on. -/
structure Float64 where
  bits : Nat
  deriving DecidableEq, Repr

structure GeneralConfig where
  InstanceID : Int
  Environment : String
  ConfigFile : String
  Hostname : String
  deriving DecidableEq, Repr

structure ProxyServerConfig where
  ListenAddress : String
  ListenPort : Int
  deriving DecidableEq, Repr

structure RedisCacheConfig where
  Protocol : String
  Endpoint : String
  Password : String
  deriving DecidableEq, Repr

structure BoltDBCacheConfig where
  Filename : String
  Bucket : String
  deriving DecidableEq, Repr

structure FilesystemCacheConfig where
  CachePath : String
  deriving DecidableEq, Repr

structure CachingConfig where
  CacheType : String
  RecordTTLSecs : Int
  Redis : RedisCacheConfig
  Filesystem : FilesystemCacheConfig
  ReapSleepMS : Int
  Compression : Bool
  BoltDB : BoltDBCacheConfig
  deriving DecidableEq, Repr

structure PrometheusOriginConfig where
  OriginURL : String
  APIPath : String
  IgnoreNoCacheHeader : Bool
  MaxValueAgeSecs : Int
  FastForwardDisable : Bool
  NoCacheLastDataSecs : Int
  TimeoutSecs : Int
  deriving DecidableEq, Repr

structure MetricsConfig where
  ListenAddress : String
  ListenPort : Int
  deriving DecidableEq, Repr

structure ProfilerConfig where
  Enabled : Bool
  ListenPort : Int
  deriving DecidableEq, Repr

structure LoggingConfig where
  LogFile : String
  LogLevel : String
  deriving DecidableEq, Repr

structure JaegerConfig where
  AgentEndpoint : String
  CollectorEndpoint : String
  Username : String
  Password : String
  Process : String
  BufferMaxCount : Int
  Tags : List (String × String)
  deriving DecidableEq, Repr

structure TracingConfig where
  SamplerType : String
  SamplerFraction : Float64
  Exporter : String
  Jaeger : JaegerConfig
  deriving DecidableEq, Repr

/-- The main configuration object; `Origins` is the map from moniker to origin. -/
structure Config where
  Caching : CachingConfig
  DefaultOriginURL : String
  Logging : LoggingConfig
  Main : GeneralConfig
  Metrics : MetricsConfig
  Profiler : ProfilerConfig
  Origins : List (String × PrometheusOriginConfig)
  ProxyServer : ProxyServerConfig
  Tracing : TracingConfig
  deriving DecidableEq, Repr

def defaultOriginConfig : PrometheusOriginConfig :=
  { OriginURL := "http://prometheus:9090/",
    APIPath := prometheusAPIv1Path,
    IgnoreNoCacheHeader := true,
    MaxValueAgeSecs := 86400,
    FastForwardDisable := false,
    NoCacheLastDataSecs := 0,
    TimeoutSecs := 180 }

/-- The configuration with its default values.  The cache-type constant
`ctMemory` is declared outside the files at hand and is taken as a parameter. -/
def NewConfig (ctMemory : String) : Config :=
  let defaultCachePath := "/tmp/trickster"
  let defaultBoltDBFile := "trickster.db"
  { Caching :=
      { CacheType := ctMemory,
        RecordTTLSecs := 21600,
        Redis := { Protocol := "tcp", Endpoint := "redis:6379", Password := "" },
        Filesystem := { CachePath := defaultCachePath },
        BoltDB := { Filename := defaultBoltDBFile, Bucket := "trickster" },
        ReapSleepMS := 1000,
        Compression := true },
    DefaultOriginURL := "",
    Logging := { LogFile := "", LogLevel := "INFO" },
    Main :=
      { InstanceID := 0, Environment := "",
        ConfigFile := "/etc/trickster/trickster.conf", Hostname := "localhost.unknown" },
    Metrics := { ListenAddress := "", ListenPort := 8082 },
    Profiler := { ListenPort := 6060, Enabled := false },
    Origins := [("default", defaultOriginConfig)],
    ProxyServer := { ListenAddress := "", ListenPort := 9090 },
    Tracing :=
      { SamplerType := "Never",
        SamplerFraction := { bits := 0 },
        Exporter := "None",
        Jaeger :=
          { AgentEndpoint := "localhost:6831",
            CollectorEndpoint := "",
            Username := "", Password := "",
            Process := "trickster",
            BufferMaxCount := 0,
            Tags := [] } } }

/-- The monikers of the configured origins. -/
def Config.monikers (c : Config) : List String := c.Origins.map (fun kv => kv.1)

/-! ## Tracing bootstrap (tracing.go) -/

/-- The samplers `newTracer` asks the trace package for: `trace.AlwaysSample()`,
`trace.ProbabilitySampler(fraction)` and `trace.NeverSample()`. -/
inductive Sampler where
  | AlwaysSample
  | ProbabilitySampler (fraction : Float64)
  | NeverSample
  deriving DecidableEq, Repr

/-- The options `newJaegerExporter` passes to `jaeger.NewExporter`; `OnError`
is the callback that logs the error as a warning. -/
structure JaegerOptions where
  CollectorEndpoint : String
  AgentEndpoint : String
  Username : String
  Password : String
  ServiceName : String
  Tags : List (String × String)
  BufferMaxCount : Int
  deriving DecidableEq, Repr

/-- A Jaeger exporter, known by the options it was made from. -/
structure Exporter where
  options : JaegerOptions
  deriving DecidableEq, Repr

/-- The process-wide state of the trace package: the installed default
sampler and the registered exporters. -/
structure TraceState where
  DefaultSampler : Sampler
  exporters : List Exporter
  deriving DecidableEq, Repr

/-- The local `traceConfig` in `newTracer`, a `trace.Config` whose zero value
has no sampler. -/
structure TraceConfig where
  DefaultSampler : Option Sampler
  deriving DecidableEq, Repr

/-- Installs the sampler of the configuration when it has one (`trace.ApplyConfig`). -/
def ApplyConfig (cfg : TraceConfig) (ts : TraceState) : TraceState :=
  match cfg.DefaultSampler with
  | some s => { ts with DefaultSampler := s }
  | none => ts

def RegisterExporter (e : Exporter) (ts : TraceState) : TraceState :=
  { ts with exporters := ts.exporters ++ [e] }

/-- A non-nil value of the function type `closer`: the closure
`func() { exporter.Flush() }`.  A `closer` variable is an `Option`, `none` being
the nil function. -/
inductive closer where
  | flush (exporter : Exporter)
  deriving DecidableEq, Repr

/-- The options built by `newJaegerExporter`; the tags are taken in the order
of the list. -/
def jaegerOptions (cfg : JaegerConfig) : JaegerOptions :=
  { CollectorEndpoint := cfg.CollectorEndpoint,
    AgentEndpoint := cfg.AgentEndpoint,
    Username := cfg.Username,
    Password := cfg.Password,
    ServiceName := cfg.Process,
    Tags := cfg.Tags,
    BufferMaxCount := cfg.BufferMaxCount }

/-- The library call `jaeger.NewExporter` is a parameter: given the options it
returns an error message or succeeds. -/
def newJaegerExporter (NewExporter : JaegerOptions → Option String) (cfg : JaegerConfig) :
    Except String Exporter :=
  match NewExporter (jaegerOptions cfg) with
  | some err => Except.error err
  | none => Except.ok { options := jaegerOptions cfg }

/-- The result of `newTracer`: the returned pair `(closer, error)`, either of
which may be nil, and the trace state it leaves. -/
structure TracerResult where
  flush : Option closer
  err : Option String
  state : TraceState
  deriving DecidableEq, Repr

def newTracer (NewExporter : JaegerOptions → Option String) (cfg : TracingConfig)
    (ts : TraceState) : TracerResult :=
  let traceConfig : TraceConfig :=
    if cfg.SamplerType = "Always" then { DefaultSampler := some Sampler.AlwaysSample }
    else if cfg.SamplerType = "Probability" then
      { DefaultSampler := some (Sampler.ProbabilitySampler cfg.SamplerFraction) }
    else if cfg.SamplerType = "Never" then { DefaultSampler := some Sampler.NeverSample }
    else { DefaultSampler := some Sampler.NeverSample }
  let ts1 := ApplyConfig traceConfig ts
  if cfg.Exporter = "Jaeger" then
    match newJaegerExporter NewExporter cfg.Jaeger with
    | Except.error err => { flush := none, err := some err, state := ts1 }
    | Except.ok exporter =>
      { flush := some (closer.flush exporter), err := none,
        state := RegisterExporter exporter ts1 }
  else { flush := none, err := none, state := ts1 }

/-! ## The startup sequence (main.go, `main`) -/

inductive Level where
  | info
  | error
  deriving DecidableEq, Repr

/-- What `main` does that can be observed, in order. -/
inductive Event where
  | println (msg : String)
  | newLogger (instanceSuffix : String)
  | log (level : Level) (keyvals : List String)
  | goProfilerEndpoint
  | metricsListenAndServe
  | getCache
  | cacheConnect
  | cacheClose
  | newTracer
  | exporterFlush (exporter : Exporter)
  | newRouter (routes : Nat)
  | listenAndServe (addr : String)
  | nilFuncCall
  deriving DecidableEq, Repr

/-- How the process ends: with an exit status, or not at all when the
listener never returns. -/
inductive Exit where
  | status (code : Nat)
  | serving
  deriving DecidableEq, Repr

/-- The results of the calls `main` makes outside the files at hand. -/
structure World where
  ctMemory : String
  args : List String
  initialTrace : TraceState
  loadConfiguration : Config → List String → Except String Config
  cacheConnect : Option String
  NewExporter : JaegerOptions → Option String
  listenAndServe : Option String

structure Run where
  events : List Event
  trace : TraceState
  exit : Exit
  deriving DecidableEq, Repr

/-- A deferred call of `main`. -/
inductive Deferred where
  | cacherClose
  | call (f : Option closer)
  deriving DecidableEq, Repr

/-- Runs one deferred call; the flag tells whether it panicked.  Calling a nil
function panics. -/
def Deferred.run : Deferred → List Event × Bool
  | Deferred.cacherClose => ([Event.cacheClose], false)
  | Deferred.call none => ([Event.nilFuncCall], true)
  | Deferred.call (some (closer.flush e)) => ([Event.exporterFlush e], false)

/-- Runs the deferred calls, last deferred first.  A panic does not stop the
remaining deferred calls. -/
def runDeferred : List Deferred → List Event × Bool
  | [] => ([], false)
  | d :: ds =>
    let (ev, p) := d.run
    let (evs, ps) := runDeferred ds
    (ev ++ evs, p || ps)

/-- The return of `main` with its stack of deferred calls: status 0, or status
2 when a deferred call panicked. -/
def returnFromMain (events : List Event) (trace : TraceState) (deferred : List Deferred) : Run :=
  let (evs, panicked) := runDeferred deferred
  { events := events ++ evs, trace := trace, exit := Exit.status (if panicked then 2 else 0) }

/-- The call `os.Exit(code)`: the process ends at once, deferred calls are not run. -/
def osExit (events : List Event) (trace : TraceState) (code : Nat) : Run :=
  { events := events, trace := trace, exit := Exit.status code }

def main (w : World) : Run :=
  match w.loadConfiguration (NewConfig w.ctMemory) w.args with
  | Except.error err =>
    osExit [Event.println ("Could not load trickster configuration:  " ++ err)] w.initialTrace 1
  | Except.ok cfg =>
    let ev1 : List Event :=
      [Event.newLogger (if cfg.Main.InstanceID > 0 then toString cfg.Main.InstanceID else ""),
       Event.log Level.info ["event", "application startup", "version", applicationVersion]]
    let ev2 : List Event := if cfg.Profiler.Enabled then [Event.goProfilerEndpoint] else []
    let ev3 : List Event := [Event.metricsListenAndServe, Event.getCache, Event.cacheConnect]
    match w.cacheConnect with
    | some err =>
      osExit (ev1 ++ ev2 ++ ev3 ++
        [Event.log Level.error ["event", "Unable to connect to Cache", "detail", err]])
        w.initialTrace 1
    | none =>
      let deferred1 : List Deferred := [Deferred.cacherClose]
      let tr := newTracer w.NewExporter cfg.Tracing w.initialTrace
      let ev4 : List Event := ev1 ++ ev2 ++ ev3 ++ [Event.newTracer]
      match tr.err with
      | some err =>
        osExit (ev4 ++
          [Event.log Level.error ["event", "Unable to initialize tracing", "detail", err]])
          tr.state 1
      | none =>
        let deferred2 : List Deferred := Deferred.call tr.flush :: deferred1
        let addr := cfg.ProxyServer.ListenAddress ++ ":" ++ toString cfg.ProxyServer.ListenPort
        let ev5 : List Event := ev4 ++
          [Event.newRouter mainRouter.routes.length,
           Event.log Level.info ["event", "proxy http endpoint starting",
             "address", cfg.ProxyServer.ListenAddress,
             "port", toString cfg.ProxyServer.ListenPort],
           Event.listenAndServe addr]
        match w.listenAndServe with
        | none => { events := ev5, trace := tr.state, exit := Exit.serving }
        | some err =>
          returnFromMain (ev5 ++ [Event.log Level.error ["event", "exiting", "err", err]])
            tr.state deferred2

/-! ## Definitions used in the statements and proofs -/

/-- A match state in which no route has matched yet. -/
def RouteMatch.fresh (m : RouteMatch) : Prop :=
  m.Route = none ∧ m.Handler = none ∧ m.Vars = [] ∧ m.MatchErr ≠ some MatchError.ErrNotFound

/-- The regexp of a template that is literal text. -/
def reLit (l : String) (b : Bool) : routeRegexp := { parts := [TplPart.lit l.data], matchPrefix := b }

/-- The regexp of a template `/{originMoniker}` followed by literal text. -/
def reOrigin (l : String) (b : Bool) : routeRegexp :=
  { parts := [TplPart.lit ['/'], TplPart.var "originMoniker".data, TplPart.lit l.data],
    matchPrefix := b }

/-- A route with a handler, a path regexp and a method matcher, as the calls
`HandleFunc(..).Methods(..)` and `PathPrefix(..).HandlerFunc(..).Methods(..)` leave it. -/
def compiled (h : Handler) (re : routeRegexp) (ms : List String) : Route :=
  { handler := some h, matchers := [matcher.path re, matcher.methodMatcher ms],
    regexpPath := some re, buildOnly := false, err := false }

/-- The first segment of a path: the text between the leading `/` and the next one. -/
def firstSegment (path : String) : String :=
  String.mk ((path.data.drop 1).takeWhile (fun c => c != '/'))

/-- A world that loads the configuration `cfg`, with the given results of the
cache connection, of `jaeger.NewExporter` and of the listener. -/
def worldOf (cfg : Config) (connect : Option String) (newExporter : Option String)
    (listen : Option String) : World :=
  { ctMemory := "memory", args := [],
    initialTrace := { DefaultSampler := Sampler.NeverSample, exporters := [] },
    loadConfiguration := fun _ _ => Except.ok cfg,
    cacheConnect := connect,
    NewExporter := fun _ => newExporter,
    listenAndServe := listen }

/-- The default configuration with the Jaeger exporter selected. -/
def jaegerConfig : Config :=
  { NewConfig "memory" with
    Tracing := { (NewConfig "memory").Tracing with Exporter := "Jaeger" } }

/-- The events of `main` before the cache connection. -/
def startupEvents (cfg : Config) : List Event :=
  [Event.newLogger (if cfg.Main.InstanceID > 0 then toString cfg.Main.InstanceID else ""),
   Event.log Level.info ["event", "application startup", "version", applicationVersion]]
  ++ (if cfg.Profiler.Enabled then [Event.goProfilerEndpoint] else [])
  ++ [Event.metricsListenAndServe, Event.getCache]

/-- The events of `main` from the cache connection to the start of the listener. -/
def servingEvents (cfg : Config) : List Event :=
  [Event.cacheConnect, Event.newTracer, Event.newRouter mainRouter.routes.length,
   Event.log Level.info ["event", "proxy http endpoint starting",
     "address", cfg.ProxyServer.ListenAddress, "port", toString cfg.ProxyServer.ListenPort],
   Event.listenAndServe
     (cfg.ProxyServer.ListenAddress ++ ":" ++ toString cfg.ProxyServer.ListenPort)]

/-- The Jaeger exporter selected and neither endpoint set. -/
def jaegerNoEndpointConfig : Config :=
  { NewConfig "memory" with
    Tracing :=
      { (NewConfig "memory").Tracing with
        Exporter := "Jaeger",
        Jaeger := { (NewConfig "memory").Tracing.Jaeger with AgentEndpoint := "" } } }

/-- A configuration with the two origins `a` and `b`. -/
def configAB : Config :=
  { NewConfig "memory" with
    Origins := [("a", defaultOriginConfig), ("b", defaultOriginConfig)] }

/-- A tracing configuration with a sampler type in the wrong case and the
fraction 0.25. -/
def lowerCaseNever : TracingConfig :=
  { (NewConfig "memory").Tracing with
    SamplerType := "never", SamplerFraction := { bits := 0x3FD0000000000000 } }

/-- A GET-only rule for `/ping` followed by a POST-only rule for the same path. -/
def pingTwice : Router :=
  { routes := [routePing, (HandleFunc "/ping" Handler.promFullProxyHandler).Methods ["POST"]] }

/-! ## Lemmas on matching -/

theorem fresh_zero : RouteMatch.zero.fresh := by
  simp [RouteMatch.fresh, RouteMatch.zero]

theorem matchersLoop_eq (ms : List matcher) (req : Request) (e : Option MatchError) :
    matchersLoop ms req e =
      if ms.all (fun m => m.isMethodMatcher || m.Match req) then
        some (if ms.all (fun m => !m.isMethodMatcher || m.Match req) then e
              else some MatchError.ErrMethodMismatch)
      else none := by
  induction ms generalizing e with
  | nil => simp [matchersLoop]
  | cons m ms ih =>
    by_cases hm : m.Match req = true
    · simp [matchersLoop, hm, ih]
    · by_cases hk : m.isMethodMatcher = true
      · simp [matchersLoop, hm, hk, ih]
      · simp [matchersLoop, hm, hk]

theorem Route_Match_of_matchesBoth (r : Route) (req : Request) (m : RouteMatch)
    (hm : m.fresh) (h : r.matchesBoth req = true) :
    r.Match req m =
      (true, { Route := some r, Handler := r.handler, Vars := r.vars req, MatchErr := none }) := by
  obtain ⟨h1, h2, h3, h4⟩ := hm
  obtain ⟨mr, mh, mv, me⟩ := m
  simp only at h1 h2 h3 h4
  subst h1 h2 h3
  simp only [Route.matchesBoth, Route.live, Route.pathMatches, Route.methodAllowed,
    Bool.and_eq_true, Bool.not_eq_true'] at h
  obtain ⟨⟨hl, hp⟩, hmeth⟩ := h
  have hv : ∀ e : Option MatchError,
      (r.setMatch req { Route := some r, Handler := r.handler, Vars := [], MatchErr := e })
        = { Route := some r, Handler := r.handler, Vars := r.vars req, MatchErr := e } := by
    intro e
    simp only [Route.setMatch, Route.vars, RouteMatch.zero]
    cases r.regexpPath with
    | none => rfl
    | some re =>
      simp only
      cases re.submatches req.Path with
      | none => rfl
      | some vs => rfl
  have hh : (if r.handler.isNone = true then r.handler else r.handler) = r.handler := by simp
  cases me with
  | none => simp [Route.Match, hl, matchersLoop_eq, hp, hmeth, hv]
  | some e =>
    cases e with
    | ErrMethodMismatch => simp [Route.Match, hl, matchersLoop_eq, hp, hmeth, hv]
    | ErrNotFound => simp at h4

theorem Route_Match_of_not_matchesBoth (r : Route) (req : Request) (m : RouteMatch)
    (hm : m.fresh) (h : r.matchesBoth req = false) :
    ∃ m1, r.Match req m = (false, m1) ∧ m1.fresh := by
  simp only [Route.matchesBoth, Route.live, Route.pathMatches, Route.methodAllowed] at h
  by_cases hl : (r.buildOnly || r.err) = true
  · exact ⟨m, by simp [Route.Match, hl], hm⟩
  · by_cases hp : r.matchers.all (fun m => m.isMethodMatcher || m.Match req) = true
    · have hmeth : r.matchers.all (fun m => !m.isMethodMatcher || m.Match req) = false := by
        simp only [Bool.not_eq_true] at hl
        simpa [hl, hp] using h
      refine ⟨{ m with MatchErr := some MatchError.ErrMethodMismatch }, ?_, ?_⟩
      · simp [Route.Match, hl, matchersLoop_eq, hp, hmeth]
      · obtain ⟨h1, h2, h3, _⟩ := hm
        exact ⟨h1, h2, h3, by simp⟩
    · exact ⟨m, by simp [Route.Match, hl, matchersLoop_eq, hp], hm⟩

/-- The loop over the routes returns the first route that matches path and method. -/
theorem routesLoop_resolution (rs : List Route) (req : Request) (m : RouteMatch)
    (hm : m.fresh) : resolution (routesLoop rs req m) = firstMatch rs req := by
  induction rs generalizing m with
  | nil => simp [routesLoop, resolution, firstMatch]
  | cons r rs ih =>
    by_cases h : r.matchesBoth req = true
    · simp [routesLoop, Route_Match_of_matchesBoth r req m hm h, resolution, firstMatch, h]
    · simp only [Bool.not_eq_true] at h
      obtain ⟨m1, h1, hf⟩ := Route_Match_of_not_matchesBoth r req m hm h
      have := ih m1 hf
      simp [routesLoop, h1, this, firstMatch, h]

theorem Router_Match_resolution (r : Router) (req : Request) :
    resolution (r.Match req RouteMatch.zero) = firstMatch r.routes req := by
  rw [← routesLoop_resolution r.routes req RouteMatch.zero fresh_zero]
  unfold Router.Match
  rcases h : routesLoop r.routes req RouteMatch.zero with ⟨b, m1⟩
  cases b with
  | true => rfl
  | false =>
    by_cases he : m1.MatchErr = some MatchError.ErrMethodMismatch
    · simp [he, resolution]
    · simp [he, resolution]

/-- A successful loop leaves the match of the first matching route, with no error. -/
theorem routesLoop_of_find (rs : List Route) (req : Request) (m : RouteMatch) (hm : m.fresh)
    (r : Route) (h : rs.find? (fun r => r.matchesBoth req) = some r) :
    routesLoop rs req m =
      (true, { Route := some r, Handler := r.handler, Vars := r.vars req, MatchErr := none }) := by
  induction rs generalizing m with
  | nil => simp at h
  | cons a rs ih =>
    by_cases ha : a.matchesBoth req = true
    · simp only [List.find?, ha, Option.some.injEq] at h
      subst h
      simp [routesLoop, Route_Match_of_matchesBoth a req m hm ha]
    · simp only [Bool.not_eq_true] at ha
      obtain ⟨m1, h1, hf⟩ := Route_Match_of_not_matchesBoth a req m hm ha
      simp only [List.find?, ha] at h
      simp [routesLoop, h1, ih m1 hf h]

theorem Router_Match_of_find (rt : Router) (req : Request) (r : Route)
    (h : rt.routes.find? (fun r => r.matchesBoth req) = some r) :
    rt.Match req RouteMatch.zero =
      (true, { Route := some r, Handler := r.handler, Vars := r.vars req, MatchErr := none }) := by
  simp [Router.Match, routesLoop_of_find rt.routes req RouteMatch.zero fresh_zero r h]

/-! ## Lemmas on path templates -/

theorem matchParts_lit_nil (b : Bool) (ps : List TplPart) (t : List Char) :
    matchParts b (TplPart.lit [] :: ps) t = matchParts b ps t := by
  simp [matchParts]

theorem matchParts_lit_cons (b : Bool) (c : Char) (l : List Char) (ps : List TplPart)
    (t : List Char) :
    matchParts b (TplPart.lit (c :: l) :: ps) (c :: t) = matchParts b (TplPart.lit l :: ps) t := by
  simp [matchParts]

theorem matchParts_lit_ne (b : Bool) (c d : Char) (l : List Char) (ps : List TplPart)
    (t : List Char) (h : c ≠ d) :
    matchParts b (TplPart.lit (c :: l) :: ps) (d :: t) = none := by
  simp [matchParts, List.isPrefixOf, h]

theorem matchParts_lit_exact (l t : List Char) :
    matchParts false [TplPart.lit l] t = if t = l then some [] else none := by
  induction l generalizing t with
  | nil => cases t <;> simp [matchParts]
  | cons c l ih =>
    cases t with
    | nil => simp [matchParts]
    | cons d t =>
      by_cases h : c = d
      · subst h
        rw [matchParts_lit_cons, ih]
        simp
      · rw [matchParts_lit_ne _ _ _ _ _ _ h]
        have : ¬ (d = c) := fun e => h e.symm
        simp [this]

theorem matchParts_nil_true (t : List Char) : matchParts true [] t = some [] := by
  simp [matchParts]

/-- A variable takes the whole segment in front of the next `/`. -/
theorem matchParts_var_seg (b : Bool) (n m : List Char) (ps : List TplPart) (rest : List Char)
    (hne : m ≠ []) (hns : '/' ∉ m) :
    matchParts b (TplPart.var n :: ps) (m ++ '/' :: rest) =
      (matchParts b ps ('/' :: rest)).map (fun vs => (String.mk n, String.mk m) :: vs) := by
  have hp : ∀ a ∈ m, (fun c : Char => c != '/') a = true := by
    intro a ha
    have : a ≠ '/' := fun e => hns (e ▸ ha)
    simpa using this
  have h1 : (m ++ '/' :: rest).takeWhile (fun c => c != '/') = m := by
    rw [List.takeWhile_append_of_pos hp]; simp
  have h2 : (m ++ '/' :: rest).dropWhile (fun c => c != '/') = '/' :: rest := by
    rw [List.dropWhile_append_of_pos hp]; simp
  simp [matchParts, h1, h2, hne]

/-- A literal without `/` after the leading one never equals a path with two segments. -/
theorem matchParts_lit_two_segments (l m rest : List Char) (hl : '/' ∉ l) :
    matchParts false [TplPart.lit ('/' :: l)] ('/' :: (m ++ '/' :: rest)) = none := by
  rw [matchParts_lit_exact]
  have : ¬ ('/' :: (m ++ '/' :: rest) = '/' :: l) := by
    intro h
    simp only [List.cons.injEq, true_and] at h
    exact hl (h ▸ by simp)
  simp [this]

/-! ## The routes of `main`, compiled -/

theorem routePing_eq :
    routePing = compiled Handler.pingHandler (reLit "/ping" false) ["GET"] := by decide

theorem routeOriginHealth_eq :
    routeOriginHealth
      = compiled Handler.promHealthCheckHandler (reOrigin "/health" false) ["GET"] := by decide

theorem routeHealth_eq :
    routeHealth = compiled Handler.promHealthCheckHandler (reLit "/health" false) ["GET"] := by
  decide

theorem routeOriginQueryRange_eq :
    routeOriginQueryRange
      = compiled Handler.promQueryRangeHandler (reOrigin "/api/v1/query_range" false)
          ["GET", "POST"] := by decide

theorem routeOriginQuery_eq :
    routeOriginQuery
      = compiled Handler.promQueryHandler (reOrigin "/api/v1/query" false) ["GET", "POST"] := by
  decide

theorem routeOriginProxy_eq :
    routeOriginProxy
      = compiled Handler.promFullProxyHandler (reOrigin "/api/v1/" true) ["GET"] := by decide

theorem routeQueryRange_eq :
    routeQueryRange
      = compiled Handler.promQueryRangeHandler (reLit "/api/v1/query_range" false)
          ["GET", "POST"] := by decide

theorem routeQuery_eq :
    routeQuery = compiled Handler.promQueryHandler (reLit "/api/v1/query" false) ["GET", "POST"] := by
  decide

theorem routeProxy_eq :
    routeProxy = compiled Handler.promFullProxyHandler (reLit "/api/v1/" true) ["GET"] := by decide

theorem routeCatchAll_eq :
    routeCatchAll = compiled Handler.promFullProxyHandler (reLit "/" true) ["GET"] := by decide

theorem compiled_matchesBoth (h : Handler) (re : routeRegexp) (ms : List String) (req : Request) :
    (compiled h re ms).matchesBoth req
      = ((matchParts re.matchPrefix re.parts req.Path.data).isSome && ms.contains req.Method) := by
  simp [compiled, Route.matchesBoth, Route.live, Route.pathMatches, Route.methodAllowed,
    matcher.Match, matcher.isMethodMatcher, routeRegexp.Match, routeRegexp.submatches]

theorem compiled_pathMatches (h : Handler) (re : routeRegexp) (ms : List String) (req : Request) :
    (compiled h re ms).pathMatches req
      = (matchParts re.matchPrefix re.parts req.Path.data).isSome := by
  simp [compiled, Route.pathMatches, matcher.Match, matcher.isMethodMatcher, routeRegexp.Match,
    routeRegexp.submatches]

theorem compiled_vars (h : Handler) (re : routeRegexp) (ms : List String) (req : Request) :
    (compiled h re ms).vars req
      = ((matchParts re.matchPrefix re.parts req.Path.data).getD []).foldl
          (fun acc kv => Vars.set acc kv.1 kv.2) [] := by
  simp only [compiled, Route.vars, Route.setMatch, RouteMatch.zero, routeRegexp.submatches]
  cases matchParts re.matchPrefix re.parts req.Path.data <;> rfl

theorem mainRouter_routes :
    mainRouter.routes =
      [compiled Handler.pingHandler (reLit "/ping" false) ["GET"],
       compiled Handler.promHealthCheckHandler (reOrigin "/health" false) ["GET"],
       compiled Handler.promHealthCheckHandler (reLit "/health" false) ["GET"],
       compiled Handler.promQueryRangeHandler (reOrigin "/api/v1/query_range" false)
         ["GET", "POST"],
       compiled Handler.promQueryHandler (reOrigin "/api/v1/query" false) ["GET", "POST"],
       compiled Handler.promFullProxyHandler (reOrigin "/api/v1/" true) ["GET"],
       compiled Handler.promQueryRangeHandler (reLit "/api/v1/query_range" false)
         ["GET", "POST"],
       compiled Handler.promQueryHandler (reLit "/api/v1/query" false) ["GET", "POST"],
       compiled Handler.promFullProxyHandler (reLit "/api/v1/" true) ["GET"],
       compiled Handler.promFullProxyHandler (reLit "/" true) ["GET"]] := by decide

/-- The submatches of an origin-scoped template on `/m` followed by `/rest`. -/
theorem reOrigin_submatches (l : String) (b : Bool) (m rest : List Char)
    (hne : m ≠ []) (hns : '/' ∉ m) :
    matchParts b (reOrigin l b).parts ('/' :: (m ++ '/' :: rest)) =
      (matchParts b [TplPart.lit l.data] ('/' :: rest)).map
        (fun vs => ("originMoniker", String.mk m) :: vs) := by
  simp only [reOrigin]
  rw [matchParts_lit_cons, matchParts_lit_nil, matchParts_var_seg _ _ _ _ _ hne hns]

/-- On a path `/m/rest`, an origin-scoped rule matches when the text after the
variable matches `/rest` and the method is allowed. -/
theorem origin_matchesBoth (h : Handler) (l : String) (b : Bool) (ms : List String)
    (req : Request) (m rest : List Char) (hp : req.Path.data = '/' :: (m ++ '/' :: rest))
    (hne : m ≠ []) (hns : '/' ∉ m) :
    (compiled h (reOrigin l b) ms).matchesBoth req
      = ((matchParts b [TplPart.lit l.data] ('/' :: rest)).isSome && ms.contains req.Method) := by
  rw [compiled_matchesBoth]
  have : (reOrigin l b).matchPrefix = b := rfl
  rw [this, hp, reOrigin_submatches l b m rest hne hns]
  simp

theorem origin_vars (h : Handler) (l : String) (b : Bool) (ms : List String)
    (req : Request) (m rest : List Char) (hp : req.Path.data = '/' :: (m ++ '/' :: rest))
    (hne : m ≠ []) (hns : '/' ∉ m)
    (hl : (matchParts b [TplPart.lit l.data] ('/' :: rest)) = some []) :
    (compiled h (reOrigin l b) ms).vars req = [("originMoniker", String.mk m)] := by
  rw [compiled_vars]
  have : (reOrigin l b).matchPrefix = b := rfl
  rw [this, hp, reOrigin_submatches l b m rest hne hns, hl]
  simp [Vars.set]

/-- A global rule with an exact one-segment path matches no path `/m/rest`. -/
theorem lit_matchesBoth_two_segments (h : Handler) (l : List Char) (ms : List String)
    (req : Request) (m rest : List Char) (hp : req.Path.data = '/' :: (m ++ '/' :: rest))
    (hl : '/' ∉ l) :
    (compiled h { parts := [TplPart.lit ('/' :: l)], matchPrefix := false } ms).matchesBoth req
      = false := by
  rw [compiled_matchesBoth]
  simp only
  rw [hp, matchParts_lit_two_segments l m rest hl]
  simp

/-- The catch-all matches every GET request whose path begins with `/`. -/
theorem catchAll_matchesBoth (req : Request) (t : List Char) (hm : req.Method = "GET")
    (hp : req.Path.data = '/' :: t) : routeCatchAll.matchesBoth req = true := by
  rw [routeCatchAll_eq, compiled_matchesBoth]
  simp [reLit, hp, hm, matchParts_lit_cons, matchParts_lit_nil, matchParts_nil_true]

/-- A rule without variables extracts none. -/
theorem lit_vars (h : Handler) (l : String) (b : Bool) (ms : List String) (req : Request) :
    (compiled h (reLit l b) ms).vars req = [] := by
  rw [compiled_vars]
  simp only [reLit]
  generalize req.Path.data = t
  generalize l.data = k
  induction k generalizing t with
  | nil => cases b <;> cases t <;> simp [matchParts]
  | cons c k ih =>
    cases t with
    | nil => simp [matchParts]
    | cons d t =>
      by_cases hcd : c = d
      · subst hcd
        rw [matchParts_lit_cons]
        exact ih t
      · rw [matchParts_lit_ne _ _ _ _ _ _ hcd]
        rfl

/-- The shape of a path on which an origin-scoped pattern matches. -/
theorem origin_shape (l : String) (b : Bool) (p : List Char) (k : List Char)
    (hl : l.data = '/' :: k)
    (h : (matchParts b (reOrigin l b).parts p).isSome = true) :
    ∃ m rest, p = '/' :: (m ++ '/' :: rest) ∧ m ≠ [] ∧ '/' ∉ m := by
  cases p with
  | nil => simp [reOrigin, matchParts] at h
  | cons c t =>
    by_cases hc : c = '/'
    · subst hc
      simp only [reOrigin] at h
      rw [matchParts_lit_cons, matchParts_lit_nil, hl] at h
      simp only [matchParts] at h
      by_cases hrun : (t.takeWhile (fun c => c != '/')).isEmpty = true
      · simp [hrun] at h
      · simp only [hrun] at h
        cases hd : t.dropWhile (fun c => c != '/') with
        | nil => simp [hd] at h
        | cons d rest =>
          by_cases hd' : d = '/'
          · subst hd'
            refine ⟨t.takeWhile (fun c => c != '/'), rest, ?_, ?_, ?_⟩
            · rw [← hd, List.takeWhile_append_dropWhile]
            · intro e
              simp [e] at hrun
            · intro hmem
              have := List.mem_takeWhile_imp hmem
              simp at this
          · have hne : ('/' : Char) ≠ d := fun e => hd' e.symm
            simp [hd, List.isPrefixOf, hne] at h
    · have hne : ('/' : Char) ≠ c := fun e => hc e.symm
      simp [reOrigin, matchParts, List.isPrefixOf, hne] at h

/-! ## Resolution on origin-scoped paths -/

theorem find_originHealth (req : Request) (m : List Char) (hm : req.Method = "GET")
    (hp : req.Path.data = '/' :: (m ++ '/' :: "health".data)) (hne : m ≠ []) (hns : '/' ∉ m) :
    mainRouter.routes.find? (fun r => r.matchesBoth req) = some routeOriginHealth := by
  have e1 := lit_matchesBoth_two_segments Handler.pingHandler "ping".data ["GET"] _ _ _ hp
    (by decide)
  have o := fun h l b ms => origin_matchesBoth h l b ms _ _ _ hp hne hns
  rw [mainRouter_routes, routeOriginHealth_eq]
  simp only [List.find?, reLit, e1, o]
  simp [matchParts_lit_exact, hm]

theorem find_originQueryRange (req : Request) (m : List Char)
    (hm : req.Method = "GET" ∨ req.Method = "POST")
    (hp : req.Path.data = '/' :: (m ++ '/' :: "api/v1/query_range".data))
    (hne : m ≠ []) (hns : '/' ∉ m) :
    mainRouter.routes.find? (fun r => r.matchesBoth req) = some routeOriginQueryRange := by
  have e1 := lit_matchesBoth_two_segments Handler.pingHandler "ping".data ["GET"] _ _ _ hp
    (by decide)
  have e2 := lit_matchesBoth_two_segments Handler.promHealthCheckHandler "health".data ["GET"]
    _ _ _ hp (by decide)
  have o := fun h l b ms => origin_matchesBoth h l b ms _ _ _ hp hne hns
  rw [mainRouter_routes, routeOriginQueryRange_eq]
  simp only [List.find?, reLit, e1, e2, o]
  rcases hm with hm | hm <;> simp [matchParts_lit_exact, hm]

theorem find_originQuery (req : Request) (m : List Char)
    (hm : req.Method = "GET" ∨ req.Method = "POST")
    (hp : req.Path.data = '/' :: (m ++ '/' :: "api/v1/query".data))
    (hne : m ≠ []) (hns : '/' ∉ m) :
    mainRouter.routes.find? (fun r => r.matchesBoth req) = some routeOriginQuery := by
  have e1 := lit_matchesBoth_two_segments Handler.pingHandler "ping".data ["GET"] _ _ _ hp
    (by decide)
  have e2 := lit_matchesBoth_two_segments Handler.promHealthCheckHandler "health".data ["GET"]
    _ _ _ hp (by decide)
  have o := fun h l b ms => origin_matchesBoth h l b ms _ _ _ hp hne hns
  rw [mainRouter_routes, routeOriginQuery_eq]
  simp only [List.find?, reLit, e1, e2, o]
  rcases hm with hm | hm <;> simp [matchParts_lit_exact, hm]

theorem find_originProxy (req : Request) (m s : List Char) (hm : req.Method = "GET")
    (hp : req.Path.data = '/' :: (m ++ '/' :: ("api/v1/".data ++ s)))
    (hne : m ≠ []) (hns : '/' ∉ m) (h1 : s ≠ "query".data) (h2 : s ≠ "query_range".data) :
    mainRouter.routes.find? (fun r => r.matchesBoth req) = some routeOriginProxy := by
  have e1 := lit_matchesBoth_two_segments Handler.pingHandler "ping".data ["GET"] _ _ _ hp
    (by decide)
  have e2 := lit_matchesBoth_two_segments Handler.promHealthCheckHandler "health".data ["GET"]
    _ _ _ hp (by decide)
  have o := fun h l b ms => origin_matchesBoth h l b ms _ _ _ hp hne hns
  have h1' : ¬ (s = ['q', 'u', 'e', 'r', 'y']) := h1
  have h2' : ¬ (s = ['q', 'u', 'e', 'r', 'y', '_', 'r', 'a', 'n', 'g', 'e']) := h2
  rw [mainRouter_routes, routeOriginProxy_eq]
  simp only [List.find?, reLit, e1, e2, o]
  simp [matchParts_lit_exact, matchParts_lit_cons, matchParts_lit_nil, matchParts_nil_true, hm,
    h1', h2', matchParts_lit_ne]

theorem vars_originHealth (req : Request) (m : List Char)
    (hp : req.Path.data = '/' :: (m ++ '/' :: "health".data)) (hne : m ≠ []) (hns : '/' ∉ m) :
    routeOriginHealth.vars req = [("originMoniker", String.mk m)] := by
  rw [routeOriginHealth_eq]
  exact origin_vars _ _ _ _ _ _ _ hp hne hns (by rw [matchParts_lit_exact]; rfl)

theorem vars_originQueryRange (req : Request) (m : List Char)
    (hp : req.Path.data = '/' :: (m ++ '/' :: "api/v1/query_range".data))
    (hne : m ≠ []) (hns : '/' ∉ m) :
    routeOriginQueryRange.vars req = [("originMoniker", String.mk m)] := by
  rw [routeOriginQueryRange_eq]
  exact origin_vars _ _ _ _ _ _ _ hp hne hns (by rw [matchParts_lit_exact]; rfl)

theorem vars_originQuery (req : Request) (m : List Char)
    (hp : req.Path.data = '/' :: (m ++ '/' :: "api/v1/query".data))
    (hne : m ≠ []) (hns : '/' ∉ m) :
    routeOriginQuery.vars req = [("originMoniker", String.mk m)] := by
  rw [routeOriginQuery_eq]
  exact origin_vars _ _ _ _ _ _ _ hp hne hns (by rw [matchParts_lit_exact]; rfl)

theorem vars_originProxy (req : Request) (m s : List Char)
    (hp : req.Path.data = '/' :: (m ++ '/' :: ("api/v1/".data ++ s)))
    (hne : m ≠ []) (hns : '/' ∉ m) :
    routeOriginProxy.vars req = [("originMoniker", String.mk m)] := by
  rw [routeOriginProxy_eq]
  refine origin_vars _ _ _ _ _ _ _ hp hne hns ?_
  show matchParts true [TplPart.lit ['/', 'a', 'p', 'i', '/', 'v', '1', '/']]
    ('/' :: (['a', 'p', 'i', '/', 'v', '1', '/'] ++ s)) = some []
  simp [matchParts_lit_cons, matchParts_lit_nil, matchParts_nil_true]

/-- The handler call that follows a successful match on a canonical path. -/
theorem ServeHTTP_of_Match (rt : Router) (req : Request) (r : Option Route) (h : Handler)
    (vs : Vars) (e : Option MatchError)
    (hM : rt.Match req RouteMatch.zero
      = (true, { Route := r, Handler := some h, Vars := vs, MatchErr := e }))
    (hc : cleanPath req.Path = req.Path) :
    rt.ServeHTTP req = Served.call h req vs := by
  simp [Router.ServeHTTP, hM, hc]

theorem find_dropMethodMismatched (rs : List Route) (req : Request) :
    (dropMethodMismatched rs req).find? (fun r => r.matchesBoth req)
      = rs.find? (fun r => r.matchesBoth req) := by
  induction rs with
  | nil => rfl
  | cons a rs ih =>
    by_cases ha : a.matchesBoth req = true
    · have hk : a.methodMismatched req = false := by
        simp only [Route.matchesBoth, Bool.and_eq_true] at ha
        simp [Route.methodMismatched, ha.2]
      simp [dropMethodMismatched, List.filter, hk, List.find?, ha]
    · simp only [Bool.not_eq_true] at ha
      by_cases hk : a.methodMismatched req = true
      · simpa [dropMethodMismatched, List.filter, hk, List.find?, ha] using ih
      · simp only [Bool.not_eq_true] at hk
        simpa [dropMethodMismatched, List.filter, hk, List.find?, ha] using ih

theorem firstMatch_dropMethodMismatched (rs : List Route) (req : Request) :
    firstMatch (dropMethodMismatched rs req) req = firstMatch rs req := by
  simp [firstMatch, find_dropMethodMismatched]

/-- A match that succeeds is the match of the first rule matching path and method. -/
theorem find_of_Match (rt : Router) (req : Request)
    (h : (rt.Match req RouteMatch.zero).1 = true) :
    ∃ r, rt.routes.find? (fun r => r.matchesBoth req) = some r := by
  have hres := Router_Match_resolution rt req
  rcases hM : rt.Match req RouteMatch.zero with ⟨b, m⟩
  rw [hM] at h hres
  simp only at h
  subst h
  simp only [resolution, firstMatch] at hres
  cases hf : rt.routes.find? (fun r => r.matchesBoth req) with
  | none => simp [hf] at hres
  | some r => exact ⟨r, rfl⟩

theorem firstSegment_shape (path : String) (m rest : List Char)
    (hp : path.data = '/' :: (m ++ '/' :: rest)) (hns : '/' ∉ m) :
    firstSegment path = String.mk m := by
  have hq : ∀ a ∈ m, (fun c : Char => c != '/') a = true := by
    intro a ha
    have : a ≠ '/' := fun e => hns (e ▸ ha)
    simpa using this
  simp only [firstSegment, hp, List.drop_succ_cons, List.drop_zero]
  rw [List.takeWhile_append_of_pos hq]
  simp

theorem origin_pathMatches (h : Handler) (l : String) (b : Bool) (ms : List String)
    (req : Request) (m rest : List Char) (hp : req.Path.data = '/' :: (m ++ '/' :: rest))
    (hne : m ≠ []) (hns : '/' ∉ m) :
    (compiled h (reOrigin l b) ms).pathMatches req
      = (matchParts b [TplPart.lit l.data] ('/' :: rest)).isSome := by
  rw [compiled_pathMatches]
  have : (reOrigin l b).matchPrefix = b := rfl
  rw [this, hp, reOrigin_submatches l b m rest hne hns]
  simp

theorem matchParts_lit_isPrefix (l t : List Char)
    (h : (matchParts true [TplPart.lit l] t).isSome = true) : ∃ s, t = l ++ s := by
  induction l generalizing t with
  | nil => exact ⟨t, rfl⟩
  | cons c l ih =>
    cases t with
    | nil => simp [matchParts] at h
    | cons d t =>
      by_cases hcd : c = d
      · subst hcd
        rw [matchParts_lit_cons] at h
        obtain ⟨s, hs⟩ := ih t h
        exact ⟨s, by simp [hs]⟩
      · rw [matchParts_lit_ne _ _ _ _ _ _ hcd] at h
        simp at h

theorem routes_have_handler : ∀ r ∈ mainRouter.routes, ∃ h, r.handler = some h := by
  have : ∀ r ∈ mainRouter.routes, r.handler.isSome = true := by decide
  intro r hr
  exact Option.isSome_iff_exists.mp (this r hr)

/-- On a GET request whose path begins with `/`, the lookup finds a rule. -/
theorem find_isSome_of_get (req : Request) (t : List Char) (hm : req.Method = "GET")
    (hp : req.Path.data = '/' :: t) :
    ∃ r, mainRouter.routes.find? (fun r => r.matchesBoth req) = some r := by
  have hc := catchAll_matchesBoth req t hm hp
  have : (mainRouter.routes.find? (fun r => r.matchesBoth req)).isSome = true := by
    rw [List.find?_isSome]
    exact ⟨routeCatchAll, by simp [mainRouter], hc⟩
  exact Option.isSome_iff_exists.mp this

/-- The rules that a global lookup can return extract no variables. -/
theorem global_vars (req : Request) : ∀ r ∈ globalRoutes, r.vars req = [] := by
  intro r hr
  simp only [globalRoutes, List.mem_cons, List.mem_singleton, List.not_mem_nil, or_false] at hr
  rcases hr with h | h | h | h | h | h <;> subst h
  · rw [routePing_eq]; exact lit_vars _ _ _ _ _
  · rw [routeHealth_eq]; exact lit_vars _ _ _ _ _
  · rw [routeQueryRange_eq]; exact lit_vars _ _ _ _ _
  · rw [routeQuery_eq]; exact lit_vars _ _ _ _ _
  · rw [routeProxy_eq]; exact lit_vars _ _ _ _ _
  · rw [routeCatchAll_eq]; exact lit_vars _ _ _ _ _

theorem matchesBoth_pathMatches (r : Route) (req : Request) (h : r.matchesBoth req = true) :
    r.pathMatches req = true := by
  simp only [Route.matchesBoth, Bool.and_eq_true] at h
  exact h.1.2

/-- Paths that are not in canonical form are redirected and reach no handler. -/
theorem ServeHTTP_not_canonical :
    mainRouter.ServeHTTP ⟨"GET", "//health"⟩ = Served.movedPermanently "/health"
    ∧ mainRouter.ServeHTTP ⟨"GET", "/../health"⟩ = Served.movedPermanently "/health"
    ∧ mainRouter.ServeHTTP ⟨"GET", "/../api/v1/query"⟩ = Served.movedPermanently "/api/v1/query"
    ∧ mainRouter.ServeHTTP ⟨"GET", "/b/api/v1/a//b"⟩
        = Served.movedPermanently "/b/api/v1/a/b" := by
  decide

/-! ## Lemmas on the startup sequence -/

theorem main_load_error (w : World) (err : String)
    (hl : w.loadConfiguration (NewConfig w.ctMemory) w.args = Except.error err) :
    main w = { events := [Event.println ("Could not load trickster configuration:  " ++ err)],
               trace := w.initialTrace, exit := Exit.status 1 } := by
  simp [main, hl, osExit]

theorem main_connect_error (w : World) (cfg : Config) (e : String)
    (hl : w.loadConfiguration (NewConfig w.ctMemory) w.args = Except.ok cfg)
    (hc : w.cacheConnect = some e) :
    main w = { events := startupEvents cfg ++ [Event.cacheConnect,
                 Event.log Level.error ["event", "Unable to connect to Cache", "detail", e]],
               trace := w.initialTrace, exit := Exit.status 1 } := by
  simp [main, hl, hc, osExit, startupEvents]

theorem main_tracer_error (w : World) (cfg : Config) (e : String)
    (hl : w.loadConfiguration (NewConfig w.ctMemory) w.args = Except.ok cfg)
    (hc : w.cacheConnect = none)
    (ht : (newTracer w.NewExporter cfg.Tracing w.initialTrace).err = some e) :
    main w = { events := startupEvents cfg ++ [Event.cacheConnect, Event.newTracer,
                 Event.log Level.error ["event", "Unable to initialize tracing", "detail", e]],
               trace := (newTracer w.NewExporter cfg.Tracing w.initialTrace).state,
               exit := Exit.status 1 } := by
  simp [main, hl, hc, ht, osExit, startupEvents]

theorem main_serving (w : World) (cfg : Config)
    (hl : w.loadConfiguration (NewConfig w.ctMemory) w.args = Except.ok cfg)
    (hc : w.cacheConnect = none)
    (ht : (newTracer w.NewExporter cfg.Tracing w.initialTrace).err = none)
    (hs : w.listenAndServe = none) :
    main w = { events := startupEvents cfg ++ servingEvents cfg,
               trace := (newTracer w.NewExporter cfg.Tracing w.initialTrace).state,
               exit := Exit.serving } := by
  simp [main, hl, hc, ht, hs, startupEvents, servingEvents]

theorem main_listen_error (w : World) (cfg : Config) (e : String)
    (hl : w.loadConfiguration (NewConfig w.ctMemory) w.args = Except.ok cfg)
    (hc : w.cacheConnect = none)
    (ht : (newTracer w.NewExporter cfg.Tracing w.initialTrace).err = none)
    (hs : w.listenAndServe = some e) :
    main w = { events := startupEvents cfg ++ servingEvents cfg
                 ++ [Event.log Level.error ["event", "exiting", "err", e]]
                 ++ (Deferred.run (Deferred.call
                      (newTracer w.NewExporter cfg.Tracing w.initialTrace).flush)).1
                 ++ [Event.cacheClose],
               trace := (newTracer w.NewExporter cfg.Tracing w.initialTrace).state,
               exit := Exit.status
                 (if (Deferred.run (Deferred.call
                      (newTracer w.NewExporter cfg.Tracing w.initialTrace).flush)).2
                  then 2 else 0) } := by
  simp [main, hl, hc, ht, hs, returnFromMain, runDeferred, startupEvents, servingEvents,
    Deferred.run]

theorem startupEvents_count (cfg : Config) (e : Event)
    (h : e = Event.cacheConnect ∨ e = Event.newTracer ∨ (∃ n, e = Event.newRouter n)
      ∨ (∃ a, e = Event.listenAndServe a) ∨ e = Event.cacheClose) :
    e ∉ startupEvents cfg := by
  rcases h with h | h | ⟨n, h⟩ | ⟨a, h⟩ | h <;> subst h <;>
    by_cases hp : cfg.Profiler.Enabled = true <;> simp [startupEvents, hp]

theorem deferred_call_events (f : Option closer) (e : Event)
    (h : e = Event.cacheConnect ∨ e = Event.newTracer ∨ (∃ n, e = Event.newRouter n)
      ∨ (∃ a, e = Event.listenAndServe a) ∨ e = Event.cacheClose) :
    e ∉ (Deferred.run (Deferred.call f)).1 := by
  rcases f with _ | ⟨x⟩ <;> rcases h with h | h | ⟨n, h⟩ | ⟨a, h⟩ | h <;> subst h <;>
    simp [Deferred.run]

theorem newTracer_jaeger_flush (NewExporter : JaegerOptions → Option String)
    (cfg : TracingConfig) (ts : TraceState) (hE : cfg.Exporter = "Jaeger")
    (ht : (newTracer NewExporter cfg ts).err = none) :
    (newTracer NewExporter cfg ts).flush
      = some (closer.flush { options := jaegerOptions cfg.Jaeger }) := by
  simp only [newTracer, hE, newJaegerExporter] at ht ⊢
  cases h : NewExporter (jaegerOptions cfg.Jaeger) with
  | none => simp
  | some e => simp [h] at ht

/-! ## The claims -/

/-- C1: for every origin moniker `m` (non-empty, without `/`), the route table
resolves a GET or POST request to `/m/api/v1/query` to the instant-query handler
and one to `/m/api/v1/query_range` to the range-query handler, and a GET request
to `/m/api/v1/s` with `s` other than `query` and `query_range` to the full-proxy
handler, in each case with `originMoniker = m`; and when the path is in
canonical form, so that the router consults the table, that handler is called
on the request as it came in, the path unchanged. -/
theorem origin_scoped_api_resolution (m : String) (hne : m.data ≠ []) (hns : '/' ∉ m.data) :
    (∀ meth : String, meth = "GET" ∨ meth = "POST" →
      mainRouter.Match ⟨meth, "/" ++ m ++ "/api/v1/query"⟩ RouteMatch.zero
        = (true, { Route := some routeOriginQuery, Handler := some Handler.promQueryHandler,
                   Vars := [("originMoniker", m)], MatchErr := none })
      ∧ (cleanPath ("/" ++ m ++ "/api/v1/query") = "/" ++ m ++ "/api/v1/query" →
        mainRouter.ServeHTTP ⟨meth, "/" ++ m ++ "/api/v1/query"⟩
          = Served.call Handler.promQueryHandler ⟨meth, "/" ++ m ++ "/api/v1/query"⟩
              [("originMoniker", m)]))
    ∧ (∀ meth : String, meth = "GET" ∨ meth = "POST" →
      mainRouter.Match ⟨meth, "/" ++ m ++ "/api/v1/query_range"⟩ RouteMatch.zero
        = (true, { Route := some routeOriginQueryRange,
                   Handler := some Handler.promQueryRangeHandler,
                   Vars := [("originMoniker", m)], MatchErr := none })
      ∧ (cleanPath ("/" ++ m ++ "/api/v1/query_range") = "/" ++ m ++ "/api/v1/query_range" →
        mainRouter.ServeHTTP ⟨meth, "/" ++ m ++ "/api/v1/query_range"⟩
          = Served.call Handler.promQueryRangeHandler
              ⟨meth, "/" ++ m ++ "/api/v1/query_range"⟩ [("originMoniker", m)]))
    ∧ (∀ s : String, s ≠ "query" → s ≠ "query_range" →
      mainRouter.Match ⟨"GET", "/" ++ m ++ "/api/v1/" ++ s⟩ RouteMatch.zero
        = (true, { Route := some routeOriginProxy, Handler := some Handler.promFullProxyHandler,
                   Vars := [("originMoniker", m)], MatchErr := none })
      ∧ (cleanPath ("/" ++ m ++ "/api/v1/" ++ s) = "/" ++ m ++ "/api/v1/" ++ s →
        mainRouter.ServeHTTP ⟨"GET", "/" ++ m ++ "/api/v1/" ++ s⟩
          = Served.call Handler.promFullProxyHandler ⟨"GET", "/" ++ m ++ "/api/v1/" ++ s⟩
              [("originMoniker", m)])) := by
  refine ⟨?_, ?_, ?_⟩
  · intro meth hmeth
    have hp : (Request.mk meth ("/" ++ m ++ "/api/v1/query")).Path.data
        = '/' :: (m.data ++ '/' :: "api/v1/query".data) := by simp [String.data_append]
    have hM := Router_Match_of_find mainRouter _ _ (find_originQuery _ m.data hmeth hp hne hns)
    rw [vars_originQuery _ m.data hp hne hns] at hM
    have hh : routeOriginQuery.handler = some Handler.promQueryHandler := by decide
    rw [hh] at hM
    exact ⟨hM, fun hc => ServeHTTP_of_Match _ _ _ _ _ _ hM hc⟩
  · intro meth hmeth
    have hp : (Request.mk meth ("/" ++ m ++ "/api/v1/query_range")).Path.data
        = '/' :: (m.data ++ '/' :: "api/v1/query_range".data) := by simp [String.data_append]
    have hM := Router_Match_of_find mainRouter _ _
      (find_originQueryRange _ m.data hmeth hp hne hns)
    rw [vars_originQueryRange _ m.data hp hne hns] at hM
    have hh : routeOriginQueryRange.handler = some Handler.promQueryRangeHandler := by decide
    rw [hh] at hM
    exact ⟨hM, fun hc => ServeHTTP_of_Match _ _ _ _ _ _ hM hc⟩
  · intro s h1 h2
    have hp : (Request.mk "GET" ("/" ++ m ++ "/api/v1/" ++ s)).Path.data
        = '/' :: (m.data ++ '/' :: ("api/v1/".data ++ s.data)) := by simp [String.data_append]
    have h1' : s.data ≠ "query".data := fun h => h1 (String.ext h)
    have h2' : s.data ≠ "query_range".data := fun h => h2 (String.ext h)
    have hM := Router_Match_of_find mainRouter _ _
      (find_originProxy _ m.data s.data rfl hp hne hns h1' h2')
    rw [vars_originProxy _ m.data s.data hp hne hns] at hM
    have hh : routeOriginProxy.handler = some Handler.promFullProxyHandler := by decide
    rw [hh] at hM
    exact ⟨hM, fun hc => ServeHTTP_of_Match _ _ _ _ _ _ hM hc⟩

/-- The moniker `b`: a GET request to `/b/api/v1/unknown` goes to the full-proxy handler. -/
theorem origin_scoped_api_resolution_witness :
    ("b" : String).data ≠ [] ∧ '/' ∉ ("b" : String).data
    ∧ cleanPath "/b/api/v1/unknown" = "/b/api/v1/unknown"
    ∧ mainRouter.Match ⟨"GET", "/b/api/v1/unknown"⟩ RouteMatch.zero
        = (true, { Route := some routeOriginProxy, Handler := some Handler.promFullProxyHandler,
                   Vars := [("originMoniker", "b")], MatchErr := none })
    ∧ mainRouter.ServeHTTP ⟨"GET", "/b/api/v1/unknown"⟩
        = Served.call Handler.promFullProxyHandler ⟨"GET", "/b/api/v1/unknown"⟩
            [("originMoniker", "b")] :=
  ⟨by decide, by decide, by decide,
   ((origin_scoped_api_resolution "b" (by decide) (by decide)).2.2 "unknown"
      (by decide) (by decide)).1,
   ((origin_scoped_api_resolution "b" (by decide) (by decide)).2.2 "unknown"
      (by decide) (by decide)).2 (by decide)⟩

/-- C2: origin-scoped rules win over global rules.  For every GET request on
which the path pattern of an origin-scoped rule matches, the table resolves to
an origin-scoped rule whose pattern matches (the rule itself for the three
exact patterns), never to a global one, with `originMoniker` the first path
segment; in particular GET `/m/health` resolves to the health-check handler
with moniker `m`, for every non-empty `m` without `/`, and when that path is in
canonical form the router calls that handler on the request. -/
theorem origin_scoped_rules_win :
    (∀ (req : Request) (r : Route), req.Method = "GET" → r ∈ originScopedRoutes →
      r.pathMatches req = true →
      ∃ r1 ∈ originScopedRoutes, r1 ∉ globalRoutes ∧ r1.pathMatches req = true
        ∧ (r ≠ routeOriginProxy → r1 = r)
        ∧ mainRouter.Match req RouteMatch.zero
          = (true, { Route := some r1, Handler := r1.handler,
                     Vars := [("originMoniker", firstSegment req.Path)], MatchErr := none }))
    ∧ (∀ m : String, m.data ≠ [] → '/' ∉ m.data →
      mainRouter.Match ⟨"GET", "/" ++ m ++ "/health"⟩ RouteMatch.zero
        = (true, { Route := some routeOriginHealth,
                   Handler := some Handler.promHealthCheckHandler,
                   Vars := [("originMoniker", m)], MatchErr := none })
      ∧ (cleanPath ("/" ++ m ++ "/health") = "/" ++ m ++ "/health" →
        mainRouter.ServeHTTP ⟨"GET", "/" ++ m ++ "/health"⟩
          = Served.call Handler.promHealthCheckHandler ⟨"GET", "/" ++ m ++ "/health"⟩
              [("originMoniker", m)])) := by
  constructor
  · intro req r hm hr hpm
    simp only [originScopedRoutes, List.mem_cons, List.mem_singleton, List.not_mem_nil,
      or_false] at hr
    -- the shape of the path
    have hshape : ∃ m rest, req.Path.data = '/' :: (m ++ '/' :: rest) ∧ m ≠ [] ∧ '/' ∉ m := by
      rcases hr with h | h | h | h <;> subst h
      · rw [routeOriginHealth_eq, compiled_pathMatches] at hpm
        exact origin_shape _ _ _ _ rfl hpm
      · rw [routeOriginQueryRange_eq, compiled_pathMatches] at hpm
        exact origin_shape _ _ _ _ rfl hpm
      · rw [routeOriginQuery_eq, compiled_pathMatches] at hpm
        exact origin_shape _ _ _ _ rfl hpm
      · rw [routeOriginProxy_eq, compiled_pathMatches] at hpm
        exact origin_shape _ _ _ _ rfl hpm
    obtain ⟨m, rest, hp, hne, hns⟩ := hshape
    have hseg := firstSegment_shape req.Path m rest hp hns
    rcases hr with h | h | h | h <;> subst h
    · have hpm1 := hpm
      rw [routeOriginHealth_eq, origin_pathMatches _ _ _ _ _ _ _ hp hne hns,
        matchParts_lit_exact] at hpm1
      have hrest : rest = "health".data := by
        by_contra hc
        have : ¬ ('/' :: rest = "/health".data) := fun e => hc (List.cons.inj e).2
        simp [this] at hpm1
      subst hrest
      refine ⟨routeOriginHealth, by simp [originScopedRoutes], by decide, hpm,
        fun _ => rfl, ?_⟩
      rw [hseg, ← vars_originHealth req m hp hne hns]
      exact Router_Match_of_find mainRouter _ _ (find_originHealth req m hm hp hne hns)
    · have hpm1 := hpm
      rw [routeOriginQueryRange_eq, origin_pathMatches _ _ _ _ _ _ _ hp hne hns,
        matchParts_lit_exact] at hpm1
      have hrest : rest = "api/v1/query_range".data := by
        by_contra hc
        have : ¬ ('/' :: rest = "/api/v1/query_range".data) := fun e => hc (List.cons.inj e).2
        simp [this] at hpm1
      subst hrest
      refine ⟨routeOriginQueryRange, by simp [originScopedRoutes], by decide, hpm,
        fun _ => rfl, ?_⟩
      rw [hseg, ← vars_originQueryRange req m hp hne hns]
      exact Router_Match_of_find mainRouter _ _
        (find_originQueryRange req m (Or.inl hm) hp hne hns)
    · have hpm1 := hpm
      rw [routeOriginQuery_eq, origin_pathMatches _ _ _ _ _ _ _ hp hne hns,
        matchParts_lit_exact] at hpm1
      have hrest : rest = "api/v1/query".data := by
        by_contra hc
        have : ¬ ('/' :: rest = "/api/v1/query".data) := fun e => hc (List.cons.inj e).2
        simp [this] at hpm1
      subst hrest
      refine ⟨routeOriginQuery, by simp [originScopedRoutes], by decide, hpm,
        fun _ => rfl, ?_⟩
      rw [hseg, ← vars_originQuery req m hp hne hns]
      exact Router_Match_of_find mainRouter _ _
        (find_originQuery req m (Or.inl hm) hp hne hns)
    · have hpm1 := hpm
      rw [routeOriginProxy_eq, origin_pathMatches _ _ _ _ _ _ _ hp hne hns] at hpm1
      obtain ⟨s0, hs0⟩ := matchParts_lit_isPrefix _ _ hpm1
      have hrest : ∃ s, rest = "api/v1/".data ++ s := ⟨s0, (List.cons.inj hs0).2⟩
      obtain ⟨s, hs⟩ := hrest
      subst hs
      by_cases hq : s = "query".data
      · subst hq
        have hp2 : req.Path.data = '/' :: (m ++ '/' :: "api/v1/query".data) := hp
        refine ⟨routeOriginQuery, by simp [originScopedRoutes], by decide, ?_,
          fun hc => absurd rfl hc, ?_⟩
        · rw [routeOriginQuery_eq, origin_pathMatches _ _ _ _ _ _ _ hp2 hne hns,
            matchParts_lit_exact]
          rfl
        · rw [hseg, ← vars_originQuery req m hp2 hne hns]
          exact Router_Match_of_find mainRouter _ _
            (find_originQuery req m (Or.inl hm) hp2 hne hns)
      · by_cases hqr : s = "query_range".data
        · subst hqr
          have hp2 : req.Path.data = '/' :: (m ++ '/' :: "api/v1/query_range".data) := hp
          refine ⟨routeOriginQueryRange, by simp [originScopedRoutes], by decide, ?_,
            fun hc => absurd rfl hc, ?_⟩
          · rw [routeOriginQueryRange_eq, origin_pathMatches _ _ _ _ _ _ _ hp2 hne hns,
              matchParts_lit_exact]
            rfl
          · rw [hseg, ← vars_originQueryRange req m hp2 hne hns]
            exact Router_Match_of_find mainRouter _ _
              (find_originQueryRange req m (Or.inl hm) hp2 hne hns)
        · refine ⟨routeOriginProxy, by simp [originScopedRoutes], by decide, hpm,
            fun _ => rfl, ?_⟩
          rw [hseg, ← vars_originProxy req m s hp hne hns]
          exact Router_Match_of_find mainRouter _ _
            (find_originProxy req m s hm hp hne hns hq hqr)
  · intro m hne hns
    have hp : (Request.mk "GET" ("/" ++ m ++ "/health")).Path.data
        = '/' :: (m.data ++ '/' :: "health".data) := by simp [String.data_append]
    have hM := Router_Match_of_find mainRouter _ _ (find_originHealth _ m.data rfl hp hne hns)
    rw [vars_originHealth _ m.data hp hne hns] at hM
    have hh : routeOriginHealth.handler = some Handler.promHealthCheckHandler := by decide
    rw [hh] at hM
    exact ⟨hM, fun hc => ServeHTTP_of_Match _ _ _ _ _ _ hM hc⟩

/-- The request GET `/b/health`, on which the origin-scoped health pattern matches. -/
theorem origin_scoped_rules_win_witness :
    (Request.mk "GET" "/b/health").Method = "GET"
    ∧ routeOriginHealth ∈ originScopedRoutes
    ∧ routeOriginHealth.pathMatches ⟨"GET", "/b/health"⟩ = true
    ∧ ∃ r1 ∈ originScopedRoutes, r1 ∉ globalRoutes
        ∧ r1.pathMatches ⟨"GET", "/b/health"⟩ = true
        ∧ (routeOriginHealth ≠ routeOriginProxy → r1 = routeOriginHealth)
        ∧ mainRouter.Match ⟨"GET", "/b/health"⟩ RouteMatch.zero
          = (true, { Route := some r1, Handler := r1.handler,
                     Vars := [("originMoniker", firstSegment "/b/health")],
                     MatchErr := none }) :=
  ⟨rfl, by decide, by decide,
   origin_scoped_rules_win.1 ⟨"GET", "/b/health"⟩ routeOriginHealth rfl (by decide) (by decide)⟩

/-- C3 as stated fails: a POST request to `/ping` matches no rule of the table;
the catch-all takes GET only, and the router answers 405. -/
theorem route_table_not_total :
    (∀ r ∈ mainRouter.routes, r.matchesBoth ⟨"POST", "/ping"⟩ = false)
    ∧ routeCatchAll.pathMatches ⟨"POST", "/ping"⟩ = true
    ∧ routeCatchAll.methodAllowed ⟨"POST", "/ping"⟩ = false
    ∧ mainRouter.Match ⟨"POST", "/ping"⟩ RouteMatch.zero
        = (false, { Route := none, Handler := none, Vars := [],
                    MatchErr := some MatchError.ErrMethodMismatch })
    ∧ cleanPath "/ping" = "/ping"
    ∧ mainRouter.ServeHTTP ⟨"POST", "/ping"⟩ = Served.methodNotAllowed := by
  decide

/-- C3, as the code has it: the table is total on GET requests.  For every GET
request whose path begins with `/` the catch-all rule matches, so route
matching succeeds without error on a rule that has a handler; and when the path
is in canonical form, so that the router consults the table, that handler is
called on the request. -/
theorem route_table_total_on_get (req : Request) (t : List Char) (hm : req.Method = "GET")
    (hp : req.Path.data = '/' :: t) :
    routeCatchAll.matchesBoth req = true
    ∧ ∃ r ∈ mainRouter.routes, ∃ h, r.handler = some h
      ∧ mainRouter.Match req RouteMatch.zero
          = (true, { Route := some r, Handler := some h, Vars := r.vars req, MatchErr := none })
      ∧ (cleanPath req.Path = req.Path →
          mainRouter.ServeHTTP req = Served.call h req (r.vars req)) := by
  refine ⟨catchAll_matchesBoth req t hm hp, ?_⟩
  obtain ⟨r, hr⟩ := find_isSome_of_get req t hm hp
  have hmem : r ∈ mainRouter.routes := List.mem_of_find?_eq_some hr
  obtain ⟨h, hh⟩ := routes_have_handler r hmem
  have hM := Router_Match_of_find mainRouter req r hr
  rw [hh] at hM
  exact ⟨r, hmem, h, hh, hM, fun hc => ServeHTTP_of_Match _ _ _ _ _ _ hM hc⟩

/-- The request GET `/anything/else` is taken by the catch-all. -/
theorem route_table_total_on_get_witness :
    (Request.mk "GET" "/anything/else").Method = "GET"
    ∧ (Request.mk "GET" "/anything/else").Path.data = '/' :: "anything/else".data
    ∧ routeCatchAll.matchesBoth ⟨"GET", "/anything/else"⟩ = true
    ∧ ∃ r ∈ mainRouter.routes, ∃ h, r.handler = some h
      ∧ mainRouter.Match ⟨"GET", "/anything/else"⟩ RouteMatch.zero
          = (true, { Route := some r, Handler := some h,
                     Vars := r.vars ⟨"GET", "/anything/else"⟩, MatchErr := none })
      ∧ (cleanPath "/anything/else" = "/anything/else" →
          mainRouter.ServeHTTP ⟨"GET", "/anything/else"⟩
            = Served.call h ⟨"GET", "/anything/else"⟩ (r.vars ⟨"GET", "/anything/else"⟩)) :=
  ⟨rfl, rfl,
   (route_table_total_on_get ⟨"GET", "/anything/else"⟩ "anything/else".data rfl rfl).1,
   (route_table_total_on_get ⟨"GET", "/anything/else"⟩ "anything/else".data rfl rfl).2⟩

/-- C4 as stated fails: with the origins `a` and `b` configured, the first
segment of `/anything/api/v1/query` is no configured moniker, and yet the
origin-scoped instant-query rule matches a GET request to it and extracts
`originMoniker = "anything"`. -/
theorem unconfigured_segment_matches_origin_rule :
    configAB.monikers = ["a", "b"]
    ∧ firstSegment "/anything/api/v1/query" = "anything"
    ∧ "anything" ∉ configAB.monikers
    ∧ routeOriginQuery ∈ originScopedRoutes
    ∧ routeOriginQuery.pathMatches ⟨"GET", "/anything/api/v1/query"⟩ = true
    ∧ mainRouter.Match ⟨"GET", "/anything/api/v1/query"⟩ RouteMatch.zero
        = (true, { Route := some routeOriginQuery, Handler := some Handler.promQueryHandler,
                   Vars := [("originMoniker", "anything")], MatchErr := none }) := by
  decide

/-- C4, as the code has it: the table is the same for every configuration, it
is built without reading the configured origins.  For every GET request whose
path begins with `/` and on which no origin-scoped pattern matches, the request
is resolved by the first global rule, in declared order, that matches path and
method, and no moniker is extracted; when the path matches none of the other
global patterns either, that rule is the catch-all with the full-proxy
handler; and when the path is in canonical form, so that the router consults
the table, the handler is called on the request as it came in. -/
theorem unscoped_get_resolves_globally (req : Request) (t : List Char)
    (hm : req.Method = "GET") (hp : req.Path.data = '/' :: t)
    (hno : ∀ r ∈ originScopedRoutes, r.pathMatches req = false) :
    (∃ r ∈ globalRoutes, globalRoutes.find? (fun r => r.matchesBoth req) = some r
      ∧ ∃ h, r.handler = some h
        ∧ mainRouter.Match req RouteMatch.zero
            = (true, { Route := some r, Handler := some h, Vars := [], MatchErr := none })
        ∧ (cleanPath req.Path = req.Path → mainRouter.ServeHTTP req = Served.call h req []))
    ∧ ((∀ r ∈ [routePing, routeHealth, routeQueryRange, routeQuery, routeProxy],
          r.pathMatches req = false) →
        mainRouter.Match req RouteMatch.zero
          = (true, { Route := some routeCatchAll, Handler := some Handler.promFullProxyHandler,
                     Vars := [], MatchErr := none })
        ∧ (cleanPath req.Path = req.Path →
            mainRouter.ServeHTTP req = Served.call Handler.promFullProxyHandler req [])) := by
  have hfalse : ∀ r : Route, r.pathMatches req = false → r.matchesBoth req = false := by
    intro r h
    cases hb : r.matchesBoth req with
    | false => rfl
    | true => rw [matchesBoth_pathMatches r req hb] at h; simp at h
  have s1 := hfalse _ (hno routeOriginHealth (by simp [originScopedRoutes]))
  have s2 := hfalse _ (hno routeOriginQueryRange (by simp [originScopedRoutes]))
  have s3 := hfalse _ (hno routeOriginQuery (by simp [originScopedRoutes]))
  have s4 := hfalse _ (hno routeOriginProxy (by simp [originScopedRoutes]))
  have hfind : mainRouter.routes.find? (fun r => r.matchesBoth req)
      = globalRoutes.find? (fun r => r.matchesBoth req) := by
    simp only [mainRouter, globalRoutes, List.find?, s1, s2, s3, s4]
  constructor
  · obtain ⟨r, hr⟩ := find_isSome_of_get req t hm hp
    have hmem : r ∈ mainRouter.routes := List.mem_of_find?_eq_some hr
    have hg : r ∈ globalRoutes := List.mem_of_find?_eq_some (hfind ▸ hr)
    obtain ⟨h, hh⟩ := routes_have_handler r hmem
    have hM := Router_Match_of_find mainRouter req r hr
    rw [hh, global_vars req r hg] at hM
    exact ⟨r, hg, hfind ▸ hr, h, hh, hM, fun hc => ServeHTTP_of_Match _ _ _ _ _ _ hM hc⟩
  · intro hother
    have g1 := hfalse _ (hother routePing (by simp))
    have g2 := hfalse _ (hother routeHealth (by simp))
    have g3 := hfalse _ (hother routeQueryRange (by simp))
    have g4 := hfalse _ (hother routeQuery (by simp))
    have g5 := hfalse _ (hother routeProxy (by simp))
    have hc := catchAll_matchesBoth req t hm hp
    have hr : mainRouter.routes.find? (fun r => r.matchesBoth req) = some routeCatchAll := by
      rw [hfind]
      simp only [globalRoutes, List.find?, g1, g2, g3, g4, g5, hc]
    have hM := Router_Match_of_find mainRouter req routeCatchAll hr
    have hh : routeCatchAll.handler = some Handler.promFullProxyHandler := by decide
    rw [hh, global_vars req routeCatchAll (by simp [globalRoutes])] at hM
    exact ⟨hM, fun hc => ServeHTTP_of_Match _ _ _ _ _ _ hM hc⟩

/-- The request GET `/anything/else`: no origin-scoped pattern and no other
global pattern matches, the catch-all resolves it to the full-proxy handler, no
moniker is extracted and the handler is called on the request as it came in. -/
theorem unscoped_get_resolves_globally_witness :
    (Request.mk "GET" "/anything/else").Method = "GET"
    ∧ (Request.mk "GET" "/anything/else").Path.data = '/' :: "anything/else".data
    ∧ (∀ r ∈ originScopedRoutes, r.pathMatches ⟨"GET", "/anything/else"⟩ = false)
    ∧ (∀ r ∈ [routePing, routeHealth, routeQueryRange, routeQuery, routeProxy],
        r.pathMatches ⟨"GET", "/anything/else"⟩ = false)
    ∧ cleanPath "/anything/else" = "/anything/else"
    ∧ mainRouter.Match ⟨"GET", "/anything/else"⟩ RouteMatch.zero
        = (true, { Route := some routeCatchAll, Handler := some Handler.promFullProxyHandler,
                   Vars := [], MatchErr := none })
    ∧ mainRouter.ServeHTTP ⟨"GET", "/anything/else"⟩
        = Served.call Handler.promFullProxyHandler ⟨"GET", "/anything/else"⟩ [] :=
  ⟨rfl, rfl, by decide, by decide, by decide,
   ((unscoped_get_resolves_globally ⟨"GET", "/anything/else"⟩ "anything/else".data rfl rfl
      (by decide)).2 (by decide)).1,
   ((unscoped_get_resolves_globally ⟨"GET", "/anything/else"⟩ "anything/else".data rfl rfl
      (by decide)).2 (by decide)).2 (by decide)⟩

/-- C5, at the default configuration: `newTracer` returns the nil function and
no error, the deferred call of that function panics, and a run of `main` in
which the listener returns an error ends with that panic and exit status 2. -/
theorem nil_flush_panics_on_return :
    (NewConfig "memory").Tracing.Exporter = "None"
    ∧ (∀ (NewExporter : JaegerOptions → Option String) (ts : TraceState),
        (newTracer NewExporter (NewConfig "memory").Tracing ts).flush = none
        ∧ (newTracer NewExporter (NewConfig "memory").Tracing ts).err = none)
    ∧ Deferred.run (Deferred.call none) = ([Event.nilFuncCall], true)
    ∧ Event.nilFuncCall ∈ (main (worldOf (NewConfig "memory") none none
        (some "listen tcp :9090: bind: address already in use"))).events
    ∧ (main (worldOf (NewConfig "memory") none none
        (some "listen tcp :9090: bind: address already in use"))).exit = Exit.status 2 := by
  refine ⟨by decide, ?_, by decide, by decide, by decide⟩
  intro NewExporter ts
  constructor <;> simp [newTracer, NewConfig]

/-- C6: sampler resolution in `newTracer`.  `"Always"` installs the Always
sampler and `"Probability"` the probability sampler with the configured
fraction; every other sampler type installs the Never sampler, and the whole
result of `newTracer`, its error included, is the one for `"Never"`; the fraction
is ignored unless the type is `"Probability"`; an error can only come from the
Jaeger exporter. -/
theorem sampler_resolution (NewExporter : JaegerOptions → Option String) (cfg : TracingConfig)
    (ts : TraceState) :
    (cfg.SamplerType = "Always" →
      (newTracer NewExporter cfg ts).state.DefaultSampler = Sampler.AlwaysSample)
    ∧ (cfg.SamplerType = "Probability" →
      (newTracer NewExporter cfg ts).state.DefaultSampler
        = Sampler.ProbabilitySampler cfg.SamplerFraction)
    ∧ (cfg.SamplerType ≠ "Always" → cfg.SamplerType ≠ "Probability" →
      (newTracer NewExporter cfg ts).state.DefaultSampler = Sampler.NeverSample
      ∧ newTracer NewExporter cfg ts
          = newTracer NewExporter { cfg with SamplerType := "Never" } ts)
    ∧ (cfg.SamplerType ≠ "Probability" → ∀ f : Float64,
      newTracer NewExporter { cfg with SamplerFraction := f } ts = newTracer NewExporter cfg ts)
    ∧ ((newTracer NewExporter cfg ts).err ≠ none → cfg.Exporter = "Jaeger") := by
  refine ⟨?_, ?_, ?_, ?_, ?_⟩
  · intro h
    simp only [newTracer, h, ApplyConfig, RegisterExporter]
    split
    · split <;> rfl
    · rfl
  · intro h
    simp only [newTracer, h, ApplyConfig, RegisterExporter]
    split
    · split <;> simp
    · simp
  · intro h1 h2
    constructor
    · simp only [newTracer, h1, h2, ApplyConfig, RegisterExporter]
      split
      · split <;> simp
      · simp
    · simp [newTracer, h1, h2, ApplyConfig]
  · intro h f
    simp [newTracer, h]
  · intro h
    by_contra hE
    simp [newTracer, hE] at h

/-- The sampler type `never`, in the wrong case, installs the Never sampler. -/
theorem sampler_resolution_witness :
    lowerCaseNever.SamplerType ≠ "Always" ∧ lowerCaseNever.SamplerType ≠ "Probability"
    ∧ (newTracer (fun _ => none) lowerCaseNever
        { DefaultSampler := Sampler.AlwaysSample, exporters := [] }).state.DefaultSampler
        = Sampler.NeverSample :=
  ⟨by decide, by decide,
   ((sampler_resolution (fun _ => none) lowerCaseNever
      { DefaultSampler := Sampler.AlwaysSample, exporters := [] }).2.2.1
      (by decide) (by decide)).1⟩

/-- C7: fail-fast startup.  In every run of `main`, a listener event is
preceded by the cache connection and then the tracing bootstrap, both
successful; when `Connect` fails the process exits with status 1, the tracing
bootstrap is not run (the trace state is untouched), no router is built and no
listener is bound; when `newTracer` fails the process exits with status 1, no
router is built and no listener is bound; each stage is attempted at most once
in a run, and exactly once when the run reaches it. -/
theorem fail_fast_startup (w : World) :
    (∀ addr, Event.listenAndServe addr ∈ (main w).events →
      w.cacheConnect = none
      ∧ (∃ cfg, w.loadConfiguration (NewConfig w.ctMemory) w.args = Except.ok cfg
          ∧ (newTracer w.NewExporter cfg.Tracing w.initialTrace).err = none)
      ∧ ∃ pre mid1 mid2 post, (main w).events
          = pre ++ Event.cacheConnect :: mid1 ++ Event.newTracer :: mid2
              ++ Event.listenAndServe addr :: post)
    ∧ (∀ cfg e, w.loadConfiguration (NewConfig w.ctMemory) w.args = Except.ok cfg →
        w.cacheConnect = some e →
        (main w).exit = Exit.status 1 ∧ (main w).trace = w.initialTrace
        ∧ Event.newTracer ∉ (main w).events
        ∧ (∀ n, Event.newRouter n ∉ (main w).events)
        ∧ (∀ a, Event.listenAndServe a ∉ (main w).events))
    ∧ (∀ cfg e, w.loadConfiguration (NewConfig w.ctMemory) w.args = Except.ok cfg →
        w.cacheConnect = none →
        (newTracer w.NewExporter cfg.Tracing w.initialTrace).err = some e →
        (main w).exit = Exit.status 1
        ∧ (∀ n, Event.newRouter n ∉ (main w).events)
        ∧ (∀ a, Event.listenAndServe a ∉ (main w).events))
    ∧ (main w).events.count Event.cacheConnect ≤ 1
    ∧ (main w).events.count Event.newTracer ≤ 1
    ∧ (∀ a, (main w).events.count (Event.listenAndServe a) ≤ 1)
    ∧ (∀ cfg, w.loadConfiguration (NewConfig w.ctMemory) w.args = Except.ok cfg →
        (main w).events.count Event.cacheConnect = 1)
    ∧ (∀ cfg, w.loadConfiguration (NewConfig w.ctMemory) w.args = Except.ok cfg →
        w.cacheConnect = none → (main w).events.count Event.newTracer = 1) := by
  rcases hl : w.loadConfiguration (NewConfig w.ctMemory) w.args with err | cfg
  · have hm := main_load_error w err hl
    simp [hm]
  · rcases hc : w.cacheConnect with _ | e
    · rcases ht : (newTracer w.NewExporter cfg.Tracing w.initialTrace).err with _ | e
      · rcases hs : w.listenAndServe with _ | e
        · have hm := main_serving w cfg hl hc ht hs
          have n1 := startupEvents_count cfg Event.cacheConnect (by simp)
          have n2 := startupEvents_count cfg Event.newTracer (by simp)
          have n3 := fun a => startupEvents_count cfg (Event.listenAndServe a) (by simp)
          refine ⟨?_, ?_, ?_, ?_, ?_, ?_, ?_, ?_⟩
          · intro addr hmem
            refine ⟨rfl, ⟨cfg, rfl, ht⟩, ?_⟩
            rw [hm] at hmem ⊢
            simp only [List.mem_append, n3, false_or, servingEvents, List.mem_cons,
              Event.listenAndServe.injEq, List.mem_singleton, reduceCtorEq,
              List.not_mem_nil, or_false] at hmem
            subst hmem
            exact ⟨startupEvents cfg, [], [Event.newRouter mainRouter.routes.length,
              Event.log Level.info ["event", "proxy http endpoint starting",
                "address", cfg.ProxyServer.ListenAddress,
                "port", toString cfg.ProxyServer.ListenPort]], [], by simp [servingEvents]⟩
          · intro cfg1 e1 _ h; simp at h
          · intro cfg1 e1 h1 _ h2
            simp only [Except.ok.injEq] at h1
            subst h1
            simp [ht] at h2
          · rw [hm]; simp [List.count_append, List.count_eq_zero_of_not_mem n1, servingEvents]
          · rw [hm]; simp [List.count_append, List.count_eq_zero_of_not_mem n2, servingEvents]
          · intro a
            rw [hm]
            simp only [List.count_append, List.count_eq_zero_of_not_mem (n3 a), servingEvents]
            simp [List.count_cons]
            split <;> simp
          · intro cfg1 h1
            simp only [Except.ok.injEq] at h1
            subst h1
            rw [hm]; simp [List.count_append, List.count_eq_zero_of_not_mem n1, servingEvents]
          · intro cfg1 h1 _
            simp only [Except.ok.injEq] at h1
            subst h1
            rw [hm]; simp [List.count_append, List.count_eq_zero_of_not_mem n2, servingEvents]
        · have hm := main_listen_error w cfg e hl hc ht hs
          have n1 := startupEvents_count cfg Event.cacheConnect (by simp)
          have n2 := startupEvents_count cfg Event.newTracer (by simp)
          have n3 := fun a => startupEvents_count cfg (Event.listenAndServe a) (by simp)
          have d1 := deferred_call_events
            (newTracer w.NewExporter cfg.Tracing w.initialTrace).flush Event.cacheConnect (by simp)
          have d2 := deferred_call_events
            (newTracer w.NewExporter cfg.Tracing w.initialTrace).flush Event.newTracer (by simp)
          have d3 := fun a => deferred_call_events
            (newTracer w.NewExporter cfg.Tracing w.initialTrace).flush (Event.listenAndServe a)
            (by simp)
          refine ⟨?_, ?_, ?_, ?_, ?_, ?_, ?_, ?_⟩
          · intro addr hmem
            refine ⟨rfl, ⟨cfg, rfl, ht⟩, ?_⟩
            rw [hm] at hmem ⊢
            simp only [List.mem_append, n3, d3, false_or, or_false, servingEvents, List.mem_cons,
              Event.listenAndServe.injEq, List.mem_singleton, reduceCtorEq,
              List.not_mem_nil] at hmem
            subst hmem
            exact ⟨startupEvents cfg, [], [Event.newRouter mainRouter.routes.length,
              Event.log Level.info ["event", "proxy http endpoint starting",
                "address", cfg.ProxyServer.ListenAddress,
                "port", toString cfg.ProxyServer.ListenPort]],
              Event.log Level.error ["event", "exiting", "err", e] ::
                ((Deferred.run (Deferred.call
                  (newTracer w.NewExporter cfg.Tracing w.initialTrace).flush)).1
                  ++ [Event.cacheClose]), by simp [servingEvents]⟩
          · intro cfg1 e1 _ h; simp at h
          · intro cfg1 e1 h1 _ h2
            simp only [Except.ok.injEq] at h1
            subst h1
            simp [ht] at h2
          · rw [hm]
            simp [List.count_append, List.count_eq_zero_of_not_mem n1,
              List.count_eq_zero_of_not_mem d1, servingEvents]
          · rw [hm]
            simp [List.count_append, List.count_eq_zero_of_not_mem n2,
              List.count_eq_zero_of_not_mem d2, servingEvents]
          · intro a
            rw [hm]
            simp only [List.count_append, List.count_eq_zero_of_not_mem (n3 a),
              List.count_eq_zero_of_not_mem (d3 a), servingEvents]
            simp [List.count_cons]
            split <;> simp
          · intro cfg1 h1
            simp only [Except.ok.injEq] at h1
            subst h1
            rw [hm]
            simp [List.count_append, List.count_eq_zero_of_not_mem n1,
              List.count_eq_zero_of_not_mem d1, servingEvents]
          · intro cfg1 h1 _
            simp only [Except.ok.injEq] at h1
            subst h1
            rw [hm]
            simp [List.count_append, List.count_eq_zero_of_not_mem n2,
              List.count_eq_zero_of_not_mem d2, servingEvents]
      · have hm := main_tracer_error w cfg e hl hc ht
        have n1 := startupEvents_count cfg Event.cacheConnect (by simp)
        have n2 := startupEvents_count cfg Event.newTracer (by simp)
        have n3 := fun a => startupEvents_count cfg (Event.listenAndServe a) (by simp)
        have n4 := fun n => startupEvents_count cfg (Event.newRouter n) (by simp)
        refine ⟨?_, ?_, ?_, ?_, ?_, ?_, ?_, ?_⟩
        · intro addr hmem
          rw [hm] at hmem
          simp [n3] at hmem
        · intro cfg1 e1 _ h; simp at h
        · intro cfg1 e1 h1 _ _
          simp only [Except.ok.injEq] at h1
          subst h1
          rw [hm]
          simp [n3, n4]
        · rw [hm]; simp [List.count_append, List.count_eq_zero_of_not_mem n1]
        · rw [hm]; simp [List.count_append, List.count_eq_zero_of_not_mem n2]
        · intro a
          rw [hm]; simp [List.count_append, List.count_eq_zero_of_not_mem (n3 a)]
        · intro cfg1 h1
          simp only [Except.ok.injEq] at h1
          subst h1
          rw [hm]; simp [List.count_append, List.count_eq_zero_of_not_mem n1]
        · intro cfg1 h1 _
          simp only [Except.ok.injEq] at h1
          subst h1
          rw [hm]; simp [List.count_append, List.count_eq_zero_of_not_mem n2]
    · have hm := main_connect_error w cfg e hl hc
      have n1 := startupEvents_count cfg Event.cacheConnect (by simp)
      have n2 := startupEvents_count cfg Event.newTracer (by simp)
      have n3 := fun a => startupEvents_count cfg (Event.listenAndServe a) (by simp)
      have n4 := fun n => startupEvents_count cfg (Event.newRouter n) (by simp)
      refine ⟨?_, ?_, ?_, ?_, ?_, ?_, ?_, ?_⟩
      · intro addr hmem
        rw [hm] at hmem
        simp [n3] at hmem
      · intro cfg1 e1 h1 _
        simp only [Except.ok.injEq] at h1
        subst h1
        rw [hm]
        simp [n2, n3, n4]
      · intro cfg1 e1 _ h; simp at h
      · rw [hm]; simp [List.count_append, List.count_eq_zero_of_not_mem n1]
      · rw [hm]; simp [List.count_append, List.count_eq_zero_of_not_mem n2]
      · intro a
        rw [hm]; simp [List.count_append, List.count_eq_zero_of_not_mem (n3 a)]
      · intro cfg1 h1
        simp only [Except.ok.injEq] at h1
        subst h1
        rw [hm]; simp [List.count_append, List.count_eq_zero_of_not_mem n1]
      · intro cfg1 _ h; simp at h

/-- A run in which the cache connection is refused. -/
theorem fail_fast_startup_witness :
    (worldOf (NewConfig "memory") (some "connection refused") none none).cacheConnect
      = some "connection refused"
    ∧ (main (worldOf (NewConfig "memory") (some "connection refused") none none)).exit
      = Exit.status 1
    ∧ Event.newTracer
      ∉ (main (worldOf (NewConfig "memory") (some "connection refused") none none)).events :=
  ⟨rfl,
   ((fail_fast_startup (worldOf (NewConfig "memory") (some "connection refused") none none)).2.1
      (NewConfig "memory") "connection refused" rfl rfl).1,
   ((fail_fast_startup (worldOf (NewConfig "memory") (some "connection refused") none none)).2.1
      (NewConfig "memory") "connection refused" rfl rfl).2.2.1⟩

/-- C8, on the exit taken when the tracing bootstrap fails: the cache was
connected, `main` leaves through `os.Exit(1)` and `Close` is not among the events
of the run; on the return after a listener error `Close` is run. -/
theorem close_skipped_on_tracer_failure :
    Event.cacheConnect ∈ (main (worldOf jaegerNoEndpointConfig none
        (some "missing endpoint for Jaeger exporter") none)).events
    ∧ (newTracer (fun _ => some "missing endpoint for Jaeger exporter")
        jaegerNoEndpointConfig.Tracing
        { DefaultSampler := Sampler.NeverSample, exporters := [] }).err
        = some "missing endpoint for Jaeger exporter"
    ∧ (main (worldOf jaegerNoEndpointConfig none
        (some "missing endpoint for Jaeger exporter") none)).exit = Exit.status 1
    ∧ Event.cacheClose ∉ (main (worldOf jaegerNoEndpointConfig none
        (some "missing endpoint for Jaeger exporter") none)).events
    ∧ Event.cacheClose ∈ (main (worldOf jaegerConfig none none
        (some "listen tcp :9090: bind: address already in use"))).events := by
  decide

/-- C9 as stated fails: with the Jaeger exporter registered, a run in which the
listener returns an error ends with exit status 0. -/
theorem listener_error_exit_status_zero :
    jaegerConfig.Tracing.Exporter = "Jaeger"
    ∧ (worldOf jaegerConfig none none
        (some "listen tcp :9090: bind: address already in use")).listenAndServe
        = some "listen tcp :9090: bind: address already in use"
    ∧ Event.log Level.error
        ["event", "exiting", "err", "listen tcp :9090: bind: address already in use"]
      ∈ (main (worldOf jaegerConfig none none
          (some "listen tcp :9090: bind: address already in use"))).events
    ∧ (main (worldOf jaegerConfig none none
        (some "listen tcp :9090: bind: address already in use"))).exit = Exit.status 0 := by
  decide

/-- C9, as the code has it: when the listener returns an error, `main` logs it
at error level right after the listener and returns; no later event is a log
entry, and with the Jaeger exporter the deferred flush and the cache `Close` run
and the process ends with exit status 0. -/
theorem listener_error_logged_then_return (w : World) (cfg : Config) (e : String)
    (hl : w.loadConfiguration (NewConfig w.ctMemory) w.args = Except.ok cfg)
    (hc : w.cacheConnect = none)
    (ht : (newTracer w.NewExporter cfg.Tracing w.initialTrace).err = none)
    (hs : w.listenAndServe = some e) :
    ∃ pre post, (main w).events
        = pre ++ [Event.listenAndServe
                    (cfg.ProxyServer.ListenAddress ++ ":" ++ toString cfg.ProxyServer.ListenPort),
                  Event.log Level.error ["event", "exiting", "err", e]] ++ post
      ∧ (∀ lvl kv, Event.log lvl kv ∉ post)
      ∧ (cfg.Tracing.Exporter = "Jaeger" →
          post = [Event.exporterFlush { options := jaegerOptions cfg.Tracing.Jaeger },
                  Event.cacheClose]
          ∧ (main w).exit = Exit.status 0) := by
  have hm := main_listen_error w cfg e hl hc ht hs
  refine ⟨startupEvents cfg ++ [Event.cacheConnect, Event.newTracer,
      Event.newRouter mainRouter.routes.length,
      Event.log Level.info ["event", "proxy http endpoint starting",
        "address", cfg.ProxyServer.ListenAddress, "port", toString cfg.ProxyServer.ListenPort]],
    (Deferred.run (Deferred.call
      (newTracer w.NewExporter cfg.Tracing w.initialTrace).flush)).1 ++ [Event.cacheClose],
    ?_, ?_, ?_⟩
  · rw [hm]; simp [servingEvents]
  · intro lvl kv
    rcases (newTracer w.NewExporter cfg.Tracing w.initialTrace).flush with _ | ⟨x⟩ <;>
      simp [Deferred.run]
  · intro hE
    rw [hm, newTracer_jaeger_flush _ _ _ hE ht]
    simp [Deferred.run]

/-- A run with the Jaeger exporter in which the listener returns an error. -/
theorem listener_error_logged_then_return_witness :
    (worldOf jaegerConfig none none (some "bind: address already in use")).cacheConnect = none
    ∧ (newTracer (fun _ => none) jaegerConfig.Tracing
        { DefaultSampler := Sampler.NeverSample, exporters := [] }).err = none
    ∧ ∃ pre post,
        (main (worldOf jaegerConfig none none (some "bind: address already in use"))).events
          = pre ++ [Event.listenAndServe
                      (jaegerConfig.ProxyServer.ListenAddress ++ ":"
                        ++ toString jaegerConfig.ProxyServer.ListenPort),
                    Event.log Level.error
                      ["event", "exiting", "err", "bind: address already in use"]] ++ post
        ∧ (∀ lvl kv, Event.log lvl kv ∉ post)
        ∧ (jaegerConfig.Tracing.Exporter = "Jaeger" →
            post = [Event.exporterFlush { options := jaegerOptions jaegerConfig.Tracing.Jaeger },
                    Event.cacheClose]
            ∧ (main (worldOf jaegerConfig none none
                (some "bind: address already in use"))).exit = Exit.status 0) :=
  ⟨rfl, by decide,
   listener_error_logged_then_return
     (worldOf jaegerConfig none none (some "bind: address already in use")) jaegerConfig
     "bind: address already in use" rfl rfl (by decide) rfl⟩

/-- C10: rules are tried in declared order and the first rule matching both
path and method wins.  A rule whose path matches and whose methods exclude the
request method does not end the evaluation: for every table and request the
resolution is that of the table without those rules (and so is the whole match
whenever a rule matches), and a POST to `/ping` on a GET-only rule followed by a
POST rule resolves to the second.  On the table of
`main`, a POST to `/api/v1/query` matches none of the seven rules before the
global instant-query rule and resolves to that rule. -/
theorem first_match_wins :
    (∀ (rt : Router) (req : Request),
      resolution (rt.Match req RouteMatch.zero) = firstMatch rt.routes req)
    ∧ (∀ (rt : Router) (req : Request),
      resolution (rt.Match req RouteMatch.zero)
        = resolution
            (Router.Match { routes := dropMethodMismatched rt.routes req } req RouteMatch.zero))
    ∧ (∀ (rt : Router) (req : Request), (rt.Match req RouteMatch.zero).1 = true →
      Router.Match { routes := dropMethodMismatched rt.routes req } req RouteMatch.zero
        = rt.Match req RouteMatch.zero)
    ∧ routePing.methodMismatched ⟨"POST", "/ping"⟩ = true
    ∧ pingTwice.Match ⟨"POST", "/ping"⟩ RouteMatch.zero
        = (true, { Route := pingTwice.routes.get? 1,
                   Handler := some Handler.promFullProxyHandler,
                   Vars := [], MatchErr := none })
    ∧ mainRouter.Match ⟨"POST", "/api/v1/query"⟩ RouteMatch.zero
        = (true, { Route := some routeQuery, Handler := some Handler.promQueryHandler,
                   Vars := [], MatchErr := none })
    ∧ (∀ r ∈ mainRouter.routes.take 7, r.matchesBoth ⟨"POST", "/api/v1/query"⟩ = false) := by
  refine ⟨Router_Match_resolution, ?_, ?_, by decide, by decide, by decide, by decide⟩
  · intro rt req
    rw [Router_Match_resolution, Router_Match_resolution]
    exact (firstMatch_dropMethodMismatched rt.routes req).symm
  · intro rt req h
    obtain ⟨r, hr⟩ := find_of_Match rt req h
    rw [Router_Match_of_find rt req r hr]
    exact Router_Match_of_find _ req r (by rw [find_dropMethodMismatched]; exact hr)

/-- A POST to `/ping` on a GET-only rule followed by a POST rule: the first rule is
method-mismatched, and the match is the same without it. -/
theorem first_match_wins_witness :
    (pingTwice.Match ⟨"POST", "/ping"⟩ RouteMatch.zero).1 = true
    ∧ dropMethodMismatched pingTwice.routes ⟨"POST", "/ping"⟩ = pingTwice.routes.drop 1
    ∧ Router.Match { routes := dropMethodMismatched pingTwice.routes ⟨"POST", "/ping"⟩ }
          ⟨"POST", "/ping"⟩ RouteMatch.zero
        = pingTwice.Match ⟨"POST", "/ping"⟩ RouteMatch.zero :=
  ⟨by decide, by decide, first_match_wins.2.2.1 pingTwice ⟨"POST", "/ping"⟩ (by decide)⟩

end Trickster
